import Mathlib

/-!
ctrl2esc: the event remapping state machine and the device session.

A shallow embedding of `ctrl2esc.c`: the function `eventmap` (the remap state
machine, with its `static` variables made an explicit `State` and the caller's
`output[]` array made an explicit buffer) and `eventmap_loop` (the device
session, run against scripted results of the library calls).
-/

namespace Ctrl2Esc

/-! ## Event classes and key codes -/

/-- Modelled from the spec: the synchronization-marker event class; the number is the one
`linux/input-event-codes.h` (a system header, not part of the repository) gives `EV_SYN`. -/
abbrev EV_SYN : Nat := 0

/-- Modelled from the spec: the key event class (`EV_KEY` of the system header). -/
abbrev EV_KEY : Nat := 1

/-- Modelled from the spec: the miscellaneous event class (`EV_MSC` of the system header). -/
abbrev EV_MSC : Nat := 4

/-- Modelled from the spec: the code of a synchronization report (`SYN_REPORT`). -/
abbrev SYN_REPORT : Nat := 0

/-- Modelled from the spec: the code of a scan-code-only miscellaneous event (`MSC_SCAN`). -/
abbrev MSC_SCAN : Nat := 4

/-- Modelled from the spec: the swapped key (`KEY_ESC` of the system header). -/
abbrev KEY_ESC : Nat := 1

/-- Modelled from the spec: the tap-candidate key (`KEY_LEFTCTRL` of the system header). -/
abbrev KEY_LEFTCTRL : Nat := 29

/-- Modelled from the spec: the key the swapped key is rewritten to (`KEY_GRAVE`). -/
abbrev KEY_GRAVE : Nat := 41

/-- Modelled from the spec: the left-shift modifier (`KEY_LEFTSHIFT`). -/
abbrev KEY_LEFTSHIFT : Nat := 42

/-- Modelled from the spec: the right-shift modifier (`KEY_RIGHTSHIFT`). -/
abbrev KEY_RIGHTSHIFT : Nat := 54

/-- Modelled from the spec: the left-alt modifier (`KEY_LEFTALT`). -/
abbrev KEY_LEFTALT : Nat := 56

/-- Modelled from the spec: the caps-lock key (`KEY_CAPSLOCK` of the system header). -/
abbrev KEY_CAPSLOCK : Nat := 58

/-- Modelled from the spec: the right-alt modifier (`KEY_RIGHTALT`). -/
abbrev KEY_RIGHTALT : Nat := 100

/-- Modelled from the spec: the vendor-specific key code excluded from the capabilities
(`KEY_WLAN` of the system header). -/
abbrev KEY_WLAN : Nat := 238

/-! ## Events -/

/-- The timestamp carried by every `struct input_event` (`struct timeval` of the system
headers): seconds and microseconds. -/
structure timeval where
  tv_sec : Int
  tv_usec : Int
deriving DecidableEq

/-- The kernel's `struct input_event`: a timestamp and the three fields `ctrl2esc.c` reads
and writes. `type` and `code` are unsigned 16-bit, `value` is signed 32-bit; the program only
copies and compares them, so they are kept as unbounded numbers. -/
structure input_event where
  time : timeval
  type : Nat
  code : Nat
  value : Int
deriving DecidableEq

/-- A C initializer `{.type = t, .code = c, .value = v}`: the fields that are not named
(the timestamp) are zero. -/
def designated (t c : Nat) (v : Int) : input_event :=
  { time := { tv_sec := 0, tv_usec := 0 }, type := t, code := c, value := v }

/-- The constant `esc_up` of `ctrl2esc.c`. -/
def esc_up : input_event := designated EV_KEY KEY_ESC 0
/-- The constant `ctrl_up` of `ctrl2esc.c`. -/
def ctrl_up : input_event := designated EV_KEY KEY_LEFTCTRL 0
/-- The constant `capslock_up` of `ctrl2esc.c`. -/
def capslock_up : input_event := designated EV_KEY KEY_CAPSLOCK 0
/-- The constant `leftalt_up` of `ctrl2esc.c`. -/
def leftalt_up : input_event := designated EV_KEY KEY_LEFTALT 0
/-- The constant `rightalt_up` of `ctrl2esc.c`. -/
def rightalt_up : input_event := designated EV_KEY KEY_RIGHTALT 0
/-- The constant `leftshift_up` of `ctrl2esc.c`. -/
def leftshift_up : input_event := designated EV_KEY KEY_LEFTSHIFT 0
/-- The constant `rightshift_up` of `ctrl2esc.c`. -/
def rightshift_up : input_event := designated EV_KEY KEY_RIGHTSHIFT 0
/-- The constant `tilde_up` of `ctrl2esc.c`. -/
def tilde_up : input_event := designated EV_KEY KEY_GRAVE 0
/-- The constant `esc_down` of `ctrl2esc.c`. -/
def esc_down : input_event := designated EV_KEY KEY_ESC 1
/-- The constant `ctrl_down` of `ctrl2esc.c`. -/
def ctrl_down : input_event := designated EV_KEY KEY_LEFTCTRL 1
/-- The constant `capslock_down` of `ctrl2esc.c`. -/
def capslock_down : input_event := designated EV_KEY KEY_CAPSLOCK 1
/-- The constant `leftalt_down` of `ctrl2esc.c`. -/
def leftalt_down : input_event := designated EV_KEY KEY_LEFTALT 1
/-- The constant `rightalt_down` of `ctrl2esc.c`. -/
def rightalt_down : input_event := designated EV_KEY KEY_RIGHTALT 1
/-- The constant `leftshift_down` of `ctrl2esc.c`. -/
def leftshift_down : input_event := designated EV_KEY KEY_LEFTSHIFT 1
/-- The constant `rightshift_down` of `ctrl2esc.c`. -/
def rightshift_down : input_event := designated EV_KEY KEY_RIGHTSHIFT 1
/-- The constant `tilde_down` of `ctrl2esc.c`. -/
def tilde_down : input_event := designated EV_KEY KEY_GRAVE 1
/-- The constant `esc_repeat` of `ctrl2esc.c`. -/
def esc_repeat : input_event := designated EV_KEY KEY_ESC 2
/-- The constant `ctrl_repeat` of `ctrl2esc.c`. -/
def ctrl_repeat : input_event := designated EV_KEY KEY_LEFTCTRL 2
/-- The constant `capslock_repeat` of `ctrl2esc.c`. -/
def capslock_repeat : input_event := designated EV_KEY KEY_CAPSLOCK 2
/-- The constant `leftalt_repeat` of `ctrl2esc.c`. -/
def leftalt_repeat : input_event := designated EV_KEY KEY_LEFTALT 2
/-- The constant `rightalt_repeat` of `ctrl2esc.c`. -/
def rightalt_repeat : input_event := designated EV_KEY KEY_RIGHTALT 2
/-- The constant `leftshift_repeat` of `ctrl2esc.c`. -/
def leftshift_repeat : input_event := designated EV_KEY KEY_LEFTSHIFT 2
/-- The constant `rightshift_repeat` of `ctrl2esc.c`. -/
def rightshift_repeat : input_event := designated EV_KEY KEY_RIGHTSHIFT 2
/-- The constant `tilde_repeat` of `ctrl2esc.c`. -/
def tilde_repeat : input_event := designated EV_KEY KEY_GRAVE 2
/-- The constant `ev_syn_report` of `ctrl2esc.c`. -/
def ev_syn_report : input_event := designated EV_SYN SYN_REPORT 0

/-- The function `equal` of `ctrl2esc.c`: two events agree in type, code and value (the
timestamp is not compared). -/
def equal (first second : input_event) : Bool :=
  first.type == second.type && first.code == second.code && first.value == second.value

/-! ## The remap state machine -/

/-- The `static` variables of `eventmap`. -/
structure State where
  capslock_is_down : Bool
  leftshift_is_down : Bool
  rightshift_is_down : Bool
  leftalt_is_down : Bool
  rightalt_is_down : Bool
  esc_is_down : Bool
  other_modifiers : Bool
  prev_key_event : input_event
deriving DecidableEq

/-- The value the `static` variables have when the program starts: all zero. -/
def State.zero : State :=
  { capslock_is_down := false, leftshift_is_down := false, rightshift_is_down := false,
    leftalt_is_down := false, rightalt_is_down := false, esc_is_down := false,
    other_modifiers := false, prev_key_event := designated 0 0 0 }

/-- The caller's array `output[]`, as a map from slot index to the event stored there. -/
abbrev Buffer : Type := Nat → input_event

/-- What one call of `eventmap` leaves behind: the returned count, the contents of
`output[]` and the `static` variables. -/
structure Result where
  num_events : Nat
  output : Buffer
  state : State

/-- The events the caller reads back: slots `0 .. num_events - 1` of `output[]`. -/
def Result.events (r : Result) : List input_event :=
  (List.range r.num_events).map r.output

/-- The function `eventmap` of `ctrl2esc.c`. -/
def eventmap (st : State) (input : input_event) (output : Buffer) : Result :=
  if input.type = EV_MSC ∧ input.code = MSC_SCAN then
    { num_events := 0, output := output, state := st }
  else
    let output := Function.update output 0 input
    let r : Result :=
      if input.type ≠ EV_KEY then
        { num_events := 1, output := output, state := st }
      else if equal input esc_down then
        { num_events := 1, output := Function.update output 0 tilde_down, state := st }
      else if equal input esc_up then
        { num_events := 1, output := Function.update output 0 tilde_up, state := st }
      else if equal input esc_repeat then
        { num_events := 1, output := Function.update output 0 tilde_repeat, state := st }
      else if equal input leftalt_down then
        { num_events := 1, output := output, state := { st with leftalt_is_down := true } }
      else if equal input leftalt_up then
        { num_events := 1, output := output, state := { st with leftalt_is_down := false } }
      else if equal input rightalt_down then
        { num_events := 1, output := output, state := { st with rightalt_is_down := true } }
      else if equal input rightalt_up then
        { num_events := 1, output := output, state := { st with rightalt_is_down := false } }
      else if equal input leftshift_down then
        { num_events := 1, output := output, state := { st with leftshift_is_down := true } }
      else if equal input leftshift_up then
        { num_events := 1, output := output, state := { st with leftshift_is_down := false } }
      else if equal input rightshift_down then
        { num_events := 1, output := output, state := { st with rightshift_is_down := true } }
      else if equal input rightshift_up then
        { num_events := 1, output := output, state := { st with rightshift_is_down := false } }
      else if equal input ctrl_down then
        { num_events := 1, output := output,
          state := { st with other_modifiers :=
            st.leftalt_is_down || st.rightalt_is_down ||
            st.leftshift_is_down || st.rightshift_is_down || st.esc_is_down } }
      else if equal input ctrl_repeat then
        { num_events := 0, output := output, state := st }
      else if equal input ctrl_up then
        if !st.other_modifiers && equal st.prev_key_event ctrl_down then
          { num_events := 5,
            output :=
              Function.update (Function.update (Function.update (Function.update
                (Function.update output 0 ctrl_up) 1 ev_syn_report) 2 esc_down)
                3 ev_syn_report) 4 esc_up,
            state := st }
        else
          { num_events := 1, output := output, state := st }
      else
        { num_events := 1, output := output, state := st }
    if input.type = EV_KEY ∧ r.num_events > 0 then
      { r with state := { r.state with prev_key_event := r.output (r.num_events - 1) } }
    else
      r

/-- A key event as the device delivers it: class `EV_KEY`, with whatever timestamp. -/
def key_event (t : timeval) (code : Nat) (value : Int) : input_event :=
  { time := t, type := EV_KEY, code := code, value := value }


/-- A buffer whose slots hold nothing yet (all fields zero). -/
def blank : Buffer := fun _ => designated 0 0 0

/-! ## Feeding a sequence of events -/

/-- Call `eventmap` on each event of a sequence in turn, as the read loop does, the array
`output[]` living in the same place for every call; the result is the final state. -/
def run (st : State) (output : Buffer) : List input_event → State
  | [] => st
  | e :: es => run (eventmap st e output).state (eventmap st e output).output es

/-- The four modifier keys whose held/not-held state `eventmap` tracks. -/
inductive Modifier where
  | leftalt
  | rightalt
  | leftshift
  | rightshift
deriving DecidableEq

/-- The key code of a tracked modifier. -/
def Modifier.code : Modifier → Nat
  | .leftalt => KEY_LEFTALT
  | .rightalt => KEY_RIGHTALT
  | .leftshift => KEY_LEFTSHIFT
  | .rightshift => KEY_RIGHTSHIFT

/-- The flag of the state that records whether a tracked modifier is held. -/
def Modifier.held (M : Modifier) (st : State) : Bool :=
  match M with
  | .leftalt => st.leftalt_is_down
  | .rightalt => st.rightalt_is_down
  | .leftshift => st.leftshift_is_down
  | .rightshift => st.rightshift_is_down

/-- The event is a press of the modifier: `(EV_KEY, code, 1)`. -/
def Modifier.is_press (M : Modifier) (e : input_event) : Bool :=
  equal e (designated EV_KEY M.code 1)

/-- The event is a release of the modifier: `(EV_KEY, code, 0)`. -/
def Modifier.is_release (M : Modifier) (e : input_event) : Bool :=
  equal e (designated EV_KEY M.code 0)

/-- The last press or release of the modifier in a sequence of events: `some true` when it
is a press, `some false` when it is a release, `none` when the sequence has neither. -/
def Modifier.last_action (M : Modifier) : List input_event → Option Bool
  | [] => none
  | e :: es =>
    match M.last_action es with
    | some b => some b
    | none => if M.is_press e then some true else if M.is_release e then some false else none

/-- Two events agree in type, code and value (they may differ in their timestamps). -/
def same_fields (a b : input_event) : Prop :=
  a.type = b.type ∧ a.code = b.code ∧ a.value = b.value

instance (a b : input_event) : Decidable (same_fields a b) := by
  unfold same_fields
  infer_instance

/-- Two states agree in every flag and in the type, code and value of the recorded last key
event (they may differ in its timestamp, which `eventmap` never reads). -/
def State.agree (a b : State) : Prop :=
  a.capslock_is_down = b.capslock_is_down ∧ a.leftshift_is_down = b.leftshift_is_down ∧
  a.rightshift_is_down = b.rightshift_is_down ∧ a.leftalt_is_down = b.leftalt_is_down ∧
  a.rightalt_is_down = b.rightalt_is_down ∧ a.esc_is_down = b.esc_is_down ∧
  a.other_modifiers = b.other_modifiers ∧ same_fields a.prev_key_event b.prev_key_event

instance (a b : State) : Decidable (State.agree a b) := by
  unfold State.agree
  infer_instance

/-! ## The device session -/

/-- The value of `EAGAIN` in `errno.h`. -/
abbrev EAGAIN : Int := 11

/-- The read status `LIBEVDEV_READ_STATUS_SUCCESS` of `libevdev.h`. -/
abbrev LIBEVDEV_READ_STATUS_SUCCESS : Int := 0

/-- The read status `LIBEVDEV_READ_STATUS_SYNC` of `libevdev.h`. -/
abbrev LIBEVDEV_READ_STATUS_SYNC : Int := 1

/-- The system and library calls `eventmap_loop` makes. `libevdev_grab` is split by its
argument (`LIBEVDEV_GRAB`, `LIBEVDEV_UNGRAB`), `libevdev_next_event` carries whether it is
called with `LIBEVDEV_READ_FLAG_SYNC`. -/
inductive Call where
  | sys_open
  | libevdev_new_from_fd
  | sleep
  | libevdev_grab
  | libevdev_enable_event_type (type : Nat)
  | libevdev_enable_event_code (type code : Nat)
  | libevdev_disable_event_code (type code : Nat)
  | libevdev_uinput_create_from_device
  | libevdev_next_event (sync : Bool)
  | libevdev_uinput_write_event (type code : Nat) (value : Int)
  | libevdev_uinput_destroy
  | libevdev_ungrab
  | libevdev_free
  | sys_close
deriving DecidableEq

/-- One line of the log of a session: a call and the value it returned (0 for the calls whose
result the program ignores). -/
structure Entry where
  call : Call
  rc : Int
deriving DecidableEq

/-- The results the outside world gives to the calls of one session: the return value of
each setup call, the successive results of `libevdev_next_event` (status and the event left
in `input`), and the return value of the n-th call of `libevdev_uinput_write_event`. -/
structure Script where
  open_rc : Int
  new_from_fd_rc : Int
  grab_rc : Int
  enable_type_rc : Int
  enable_esc_rc : Int
  enable_capslock_rc : Int
  enable_leftctrl_rc : Int
  disable_wlan_rc : Int
  uinput_create_rc : Int
  reads : List (Int × input_event)
  write_rc : Nat → Int

/-- The inner `for` loop of `eventmap_loop`: write the events in order, stop at the first
write that fails. Returns whether all writes succeeded, the number of write calls made so
far, and the log of the calls. -/
def write_events (write_rc : Nat → Int) : List input_event → Nat → Bool × Nat × List Entry
  | [], n => (true, n, [])
  | e :: es, n =>
    if write_rc n < 0 then
      (false, n + 1, [⟨.libevdev_uinput_write_event e.type e.code e.value, write_rc n⟩])
    else
      let rest := write_events write_rc es (n + 1)
      (rest.1, rest.2.1,
        ⟨.libevdev_uinput_write_event e.type e.code e.value, write_rc n⟩ :: rest.2.2)

/-- What the `for (;;)` loop of `eventmap_loop` has done when it is left or when the script
of reads is used up: `result` is `some 1` after `break`, `some 0` after a failed write
(`goto teardown_udev`), and `none` when the loop is still blocked in a read. -/
structure LoopEnd where
  result : Option Int
  log : List Entry
  state : State

/-- The `for (;;)` loop of `eventmap_loop`, each call of `libevdev_next_event` taking the
next result of the script. `sync` tells that the call is one of the inner `while` loop. -/
def read_loop (write_rc : Nat → Int) :
    List (Int × input_event) → Bool → State → Buffer → Nat → LoopEnd
  | [], _, st, _, _ => { result := none, log := [], state := st }
  | (rc, input) :: rest, sync, st, output, n =>
    let here : Entry := ⟨.libevdev_next_event sync, rc⟩
    if rc = LIBEVDEV_READ_STATUS_SYNC then
      let r := read_loop write_rc rest true st output n
      { r with log := here :: r.log }
    else if rc = -EAGAIN then
      let r := read_loop write_rc rest false st output n
      { r with log := here :: r.log }
    else if rc ≠ LIBEVDEV_READ_STATUS_SUCCESS then
      { result := some 1, log := [here], state := st }
    else
      let m := eventmap st input output
      let w := write_events write_rc m.events n
      if w.1 then
        let r := read_loop write_rc rest false m.state m.output w.2.1
        { r with log := here :: (w.2.2 ++ r.log) }
      else
        { result := some 0, log := here :: w.2.2, state := m.state }

/-- The calls made from the label `teardown_fd` on. -/
def teardown_fd : List Entry := [⟨.sys_close, 0⟩]

/-- The calls made from the label `teardown_dev` on. -/
def teardown_dev : List Entry := ⟨.libevdev_free, 0⟩ :: teardown_fd

/-- The calls made from the label `teardown_grab` on. -/
def teardown_grab : List Entry := ⟨.libevdev_ungrab, 0⟩ :: teardown_dev

/-- The calls made from the label `teardown_udev` on. -/
def teardown_udev : List Entry := ⟨.libevdev_uinput_destroy, 0⟩ :: teardown_grab

/-- The function `eventmap_loop` of `ctrl2esc.c`, run against a script: the value it
returns (`none` while it is still blocked in a read at the end of the script), the log of
its calls in order, and the final `static` variables of `eventmap`. -/
def eventmap_loop (sc : Script) (st : State) (output : Buffer) : LoopEnd :=
  let l_open : List Entry := [⟨.sys_open, sc.open_rc⟩]
  if sc.open_rc < 0 then
    { result := some 0, log := l_open, state := st }
  else
    let l_dev := l_open ++ [⟨.libevdev_new_from_fd, sc.new_from_fd_rc⟩]
    if sc.new_from_fd_rc < 0 then
      { result := some 0, log := l_dev ++ teardown_fd, state := st }
    else
      let l_grab := l_dev ++ [⟨.sleep, 0⟩, ⟨.libevdev_grab, sc.grab_rc⟩]
      if sc.grab_rc < 0 then
        { result := some 0, log := l_grab ++ teardown_dev, state := st }
      else
        let l1 := l_grab ++ [⟨.libevdev_enable_event_type EV_KEY, sc.enable_type_rc⟩]
        if sc.enable_type_rc < 0 then
          { result := some 0, log := l1 ++ teardown_grab, state := st }
        else
          let l2 := l1 ++ [⟨.libevdev_enable_event_code EV_KEY KEY_ESC, sc.enable_esc_rc⟩]
          if sc.enable_esc_rc < 0 then
            { result := some 0, log := l2 ++ teardown_grab, state := st }
          else
            let l3 := l2 ++
              [⟨.libevdev_enable_event_code EV_KEY KEY_CAPSLOCK, sc.enable_capslock_rc⟩]
            if sc.enable_capslock_rc < 0 then
              { result := some 0, log := l3 ++ teardown_grab, state := st }
            else
              let l4 := l3 ++
                [⟨.libevdev_enable_event_code EV_KEY KEY_LEFTCTRL, sc.enable_leftctrl_rc⟩]
              if sc.enable_leftctrl_rc < 0 then
                { result := some 0, log := l4 ++ teardown_grab, state := st }
              else
                let l5 := l4 ++
                  [⟨.libevdev_disable_event_code EV_KEY KEY_WLAN, sc.disable_wlan_rc⟩]
                if sc.disable_wlan_rc < 0 then
                  { result := some 0, log := l5 ++ teardown_grab, state := st }
                else
                  let l6 := l5 ++
                    [⟨.libevdev_uinput_create_from_device, sc.uinput_create_rc⟩]
                  if sc.uinput_create_rc < 0 then
                    { result := some 0, log := l6 ++ teardown_grab, state := st }
                  else
                    let r := read_loop sc.write_rc sc.reads false st output 0
                    match r.result with
                    | none => { r with log := l6 ++ r.log }
                    | some v => { result := some v, log := l6 ++ r.log ++ teardown_udev,
                                  state := r.state }

/-- The resources a session holds. -/
inductive Resource where
  | fd
  | dev
  | grab
  | udev
deriving DecidableEq

/-- The resource a line of the log acquires: a successful `open`, `libevdev_new_from_fd`,
`libevdev_grab(LIBEVDEV_GRAB)` or `libevdev_uinput_create_from_device`. -/
def Entry.acquires (e : Entry) : Option Resource :=
  if e.rc < 0 then none
  else match e.call with
    | .sys_open => some .fd
    | .libevdev_new_from_fd => some .dev
    | .libevdev_grab => some .grab
    | .libevdev_uinput_create_from_device => some .udev
    | _ => none

/-- The resource a line of the log releases: `close`, `libevdev_free`,
`libevdev_grab(LIBEVDEV_UNGRAB)` or `libevdev_uinput_destroy`. -/
def Entry.releases (e : Entry) : Option Resource :=
  match e.call with
  | .sys_close => some .fd
  | .libevdev_free => some .dev
  | .libevdev_ungrab => some .grab
  | .libevdev_uinput_destroy => some .udev
  | _ => none

/-- The resources acquired in a log, in order of acquisition. -/
def acquisitions (log : List Entry) : List Resource := log.filterMap Entry.acquires

/-- The resources released in a log, in order of release. -/
def releases (log : List Entry) : List Resource := log.filterMap Entry.releases

/-- A script in which every setup call succeeds, one key press is read and written, and the
next read reports that the device is gone (`-ENODEV`). -/
def unplugged : Script :=
  { open_rc := 3, new_from_fd_rc := 0, grab_rc := 0, enable_type_rc := 0, enable_esc_rc := 0,
    enable_capslock_rc := 0, enable_leftctrl_rc := 0, disable_wlan_rc := 0,
    uinput_create_rc := 0,
    reads := [(0, key_event ⟨1, 0⟩ KEY_ESC 1), (-19, designated 0 0 0)],
    write_rc := fun _ => 0 }

/-! ## Reachable states -/

/-- The states `eventmap` can be in: the start state, and every state a call of `eventmap`
leaves behind when it is entered in such a state (with any event and any array contents). -/
inductive Reachable : State → Prop where
  | zero : Reachable State.zero
  | step (st : State) (e : input_event) (o : Buffer) :
      Reachable st → Reachable (eventmap st e o).state

/-- The latch is not stale: `esc_is_down` is false and, when the recorded last key event
equals the `KEY_LEFTCTRL` press, `other_modifiers` is the disjunction of the four modifier
flags as they are now. -/
def latch_fresh (st : State) : Prop :=
  st.esc_is_down = false ∧
  (equal st.prev_key_event ctrl_down = true →
    st.other_modifiers =
      (st.leftalt_is_down || st.rightalt_is_down || st.leftshift_is_down ||
        st.rightshift_is_down))

/-- The events that may arrive while the tap-candidate key is held without any other key
being touched: repeats of `KEY_LEFTCTRL` and events that are not key events. -/
def hold_filler (e : input_event) : Prop :=
  equal e ctrl_repeat = true ∨ e.type ≠ EV_KEY

/-! ## What the read loop is expected to write -/

/-- The fields of an event that `libevdev_uinput_write_event` is given: type, code, value. -/
def input_event.fields (e : input_event) : Nat × Nat × Int := (e.type, e.code, e.value)

/-- The events the synthetic device received according to a log: the type, code and value of
each call of `libevdev_uinput_write_event` that did not fail, in order. -/
def written (log : List Entry) : List (Nat × Nat × Int) :=
  log.filterMap fun e =>
    match e.call with
    | .libevdev_uinput_write_event t c v => if e.rc < 0 then none else some (t, c, v)
    | _ => none

/-- The concatenation, in order, of the outputs of `eventmap` for the events of a script that
are read with status `LIBEVDEV_READ_STATUS_SUCCESS`, up to the first result that is neither
that status, `LIBEVDEV_READ_STATUS_SYNC` nor `-EAGAIN`; the results with one of the latter
two statuses are skipped and change nothing. -/
def expected_outputs (st : State) (o : Buffer) : List (Int × input_event) → List input_event
  | [] => []
  | (rc, input) :: rest =>
    if rc = LIBEVDEV_READ_STATUS_SUCCESS then
      (eventmap st input o).events ++
        expected_outputs (eventmap st input o).state (eventmap st input o).output rest
    else if rc = LIBEVDEV_READ_STATUS_SYNC ∨ rc = -EAGAIN then
      expected_outputs st o rest
    else
      []

/-- The events of a list that reach the device when they are written in turn by the calls
number `n`, `n + 1`, ... of `libevdev_uinput_write_event`: those before the first call that
fails. -/
def accepted (write_rc : Nat → Int) : Nat → List input_event → List input_event
  | _, [] => []
  | n, e :: es => if write_rc n < 0 then [] else e :: accepted write_rc (n + 1) es

/-- None of the `k` calls number `n`, ..., `n + k - 1` of `libevdev_uinput_write_event`
fails. -/
def writes_ok (write_rc : Nat → Int) : Nat → Nat → Bool
  | _, 0 => true
  | n, k + 1 => decide (0 ≤ write_rc n) && writes_ok write_rc (n + 1) k

/-- Some result of the script is neither `LIBEVDEV_READ_STATUS_SUCCESS`,
`LIBEVDEV_READ_STATUS_SYNC` nor `-EAGAIN`: a read failure that ends the loop. -/
def fatal_read (reads : List (Int × input_event)) : Bool :=
  reads.any fun r =>
    decide (r.1 ≠ LIBEVDEV_READ_STATUS_SUCCESS ∧ r.1 ≠ LIBEVDEV_READ_STATUS_SYNC ∧
      r.1 ≠ -EAGAIN)

/-- Every setup call of `eventmap_loop` succeeds. -/
def setup_ok (sc : Script) : Prop :=
  0 ≤ sc.open_rc ∧ 0 ≤ sc.new_from_fd_rc ∧ 0 ≤ sc.grab_rc ∧ 0 ≤ sc.enable_type_rc ∧
  0 ≤ sc.enable_esc_rc ∧ 0 ≤ sc.enable_capslock_rc ∧ 0 ≤ sc.enable_leftctrl_rc ∧
  0 ≤ sc.disable_wlan_rc ∧ 0 ≤ sc.uinput_create_rc

instance (sc : Script) : Decidable (setup_ok sc) := by
  unfold setup_ok
  infer_instance

/-- The path of `main` taken when the program is given a device (`argc == 2`):
`return !eventmap_loop(argv[1])`; `none` while `eventmap_loop` has not returned. -/
def main_with_device (sc : Script) (st : State) (output : Buffer) : Option Int :=
  (eventmap_loop sc st output).result.map fun result => if result = 0 then 1 else 0

/-- The calls `eventmap_loop` has logged when it enters its `for (;;)` loop. -/
def setup_log (sc : Script) : List Entry :=
  [⟨.sys_open, sc.open_rc⟩, ⟨.libevdev_new_from_fd, sc.new_from_fd_rc⟩, ⟨.sleep, 0⟩,
    ⟨.libevdev_grab, sc.grab_rc⟩,
    ⟨.libevdev_enable_event_type EV_KEY, sc.enable_type_rc⟩,
    ⟨.libevdev_enable_event_code EV_KEY KEY_ESC, sc.enable_esc_rc⟩,
    ⟨.libevdev_enable_event_code EV_KEY KEY_CAPSLOCK, sc.enable_capslock_rc⟩,
    ⟨.libevdev_enable_event_code EV_KEY KEY_LEFTCTRL, sc.enable_leftctrl_rc⟩,
    ⟨.libevdev_disable_event_code EV_KEY KEY_WLAN, sc.disable_wlan_rc⟩,
    ⟨.libevdev_uinput_create_from_device, sc.uinput_create_rc⟩]

/-! ## Capabilities of the device abstraction -/

/-- Modelled from the spec: the capability set of the device abstraction, as a list of key
codes, and the effect on it of the library call `libevdev_enable_event_code` with type
`EV_KEY` (libevdev is not part of the repository): the code is enabled, whatever the physical
device supports, and no other code is touched. -/
def libevdev_enable_event_code (keys : List Nat) (code : Nat) : List Nat :=
  if code ∈ keys then keys else code :: keys

/-- Modelled from the spec: the effect on the capability set of the library call
`libevdev_disable_event_code` with type `EV_KEY`: the code is disabled and no other code is
touched. -/
def libevdev_disable_event_code (keys : List Nat) (code : Nat) : List Nat :=
  keys.filter fun k => k ≠ code

/-- The capability step of `eventmap_loop` (the five calls between `libevdev_grab` and
`libevdev_uinput_create_from_device`) on the key codes the device advertises: the key codes
advertised afterwards, or `none` when one of the calls fails (`goto teardown_grab`). -/
def capability_step (sc : Script) (keys : List Nat) : Option (List Nat) :=
  if sc.enable_type_rc < 0 then none
  else if sc.enable_esc_rc < 0 then none
  else
    let keys := libevdev_enable_event_code keys KEY_ESC
    if sc.enable_capslock_rc < 0 then none
    else
      let keys := libevdev_enable_event_code keys KEY_CAPSLOCK
      if sc.enable_leftctrl_rc < 0 then none
      else
        let keys := libevdev_enable_event_code keys KEY_LEFTCTRL
        if sc.disable_wlan_rc < 0 then none
        else some (libevdev_disable_event_code keys KEY_WLAN)

/-! ## The qualification check -/

/-- A candidate device as `should_grab` sees it: what `udev_device_get_syspath`,
`udev_device_get_action` and `udev_device_get_devnode` return for it (`none` for `NULL`), the
results of `open` and `libevdev_new_from_fd` on its node, whether it has the event type
`EV_KEY`, and the key codes for which `libevdev_has_event_code` answers 1. -/
structure udev_device where
  syspath : String
  action : Option String
  devnode : Option String
  open_rc : Int
  new_from_fd_rc : Int
  has_ev_key : Bool
  keys : List Nat

/-- The test `strncmp(s, p, sizeof(p) - 1) == 0` for a string constant `p`: the string `s`
begins with `p`. -/
def starts_with (s p : String) : Bool := p.data.isPrefixOf s.data

/-- The constant `virtual_devices_directory` of `should_grab`. -/
def virtual_devices_directory : String := "/sys/devices/virtual/input/"

/-- The constant `input_prefix` of `should_grab`. -/
def input_prefix : String := "/dev/input/event"

/-- The function `should_grab` of `ctrl2esc.c`; `none` is a `NULL` device. -/
def should_grab (device : Option udev_device) (initial_scan : Int) : Int :=
  match device with
  | none => 0
  | some d =>
    if starts_with d.syspath virtual_devices_directory then 0
    else if initial_scan = 0 ∧ (d.action = none ∨ d.action ≠ some "add") then 0
    else
      match d.devnode with
      | none => 0
      | some devnode =>
        if ¬ starts_with devnode input_prefix then 0
        else if d.open_rc < 0 then 0
        else if d.new_from_fd_rc < 0 then 0
        else if d.has_ev_key && (decide (KEY_ESC ∈ d.keys) || decide (KEY_CAPSLOCK ∈ d.keys))
        then 1
        else 0

/-- A keyboard found at start-up whose only policy-related key is `KEY_CAPSLOCK`: it has
neither `KEY_ESC` nor `KEY_LEFTCTRL`. -/
def capslock_only : udev_device :=
  { syspath := "/sys/devices/platform/i8042/serio0/input/input3/event3", action := none,
    devnode := some "/dev/input/event3", open_rc := 4, new_from_fd_rc := 0,
    has_ev_key := true, keys := [KEY_CAPSLOCK, 30, 31] }

/-- A script in which every setup call succeeds and nothing is read. -/
def quiet : Script :=
  { open_rc := 3, new_from_fd_rc := 0, grab_rc := 0, enable_type_rc := 0, enable_esc_rc := 0,
    enable_capslock_rc := 0, enable_leftctrl_rc := 0, disable_wlan_rc := 0,
    uinput_create_rc := 0, reads := [], write_rc := fun _ => 0 }

/-- An ordinary keyboard announced by a hot-plug event. -/
def plugged_keyboard : udev_device :=
  { syspath := "/sys/devices/pci0000:00/usb1/1-2/input/input9/event9", action := some "add",
    devnode := some "/dev/input/event9", open_rc := 4, new_from_fd_rc := 0,
    has_ev_key := true, keys := [KEY_ESC, KEY_LEFTCTRL, KEY_CAPSLOCK, KEY_GRAVE, 30] }

/-- The synthetic device a session creates, announced by a hot-plug event. -/
def synthetic_keyboard : udev_device :=
  { syspath := "/sys/devices/virtual/input/input20/event20", action := some "add",
    devnode := some "/dev/input/event20", open_rc := 4, new_from_fd_rc := 0,
    has_ev_key := true, keys := [KEY_ESC, KEY_LEFTCTRL, KEY_CAPSLOCK, KEY_GRAVE, 30] }

/-! ## Framing of an event stream -/

/-- The event is a key event: its type is `EV_KEY`. -/
def is_key (e : input_event) : Bool := decide (e.type = EV_KEY)

/-- The event is a synchronization report: type `EV_SYN`, code `SYN_REPORT`. -/
def is_syn_report (e : input_event) : Bool :=
  decide (e.type = EV_SYN) && decide (e.code = SYN_REPORT)

/-- A sequence of events is well-framed: between any two of its key events there is at least
one synchronization report. -/
def well_framed (l : List input_event) : Prop :=
  ∀ a x b y c, l = a ++ x :: (b ++ y :: c) → is_key x = true → is_key y = true →
    ∃ s, s ∈ b ∧ is_syn_report s = true

/-- Every key event of the sequence has a synchronization report somewhere before it. -/
def keys_after_syn (l : List input_event) : Prop :=
  ∀ a x c, l = a ++ x :: c → is_key x = true → ∃ s, s ∈ a ∧ is_syn_report s = true

/-- A scan of the sequence that checks the framing; `pending` tells that a key event has
been seen since the last synchronization report. -/
def framed_from (pending : Bool) : List input_event → Bool
  | [] => true
  | e :: es =>
    if is_key e then !pending && framed_from true es
    else if is_syn_report e then framed_from false es
    else framed_from pending es

/-- The concatenation, in order, of the outputs of `eventmap` over a sequence of events. -/
def outputs (st : State) (o : Buffer) : List input_event → List input_event
  | [] => []
  | e :: es =>
    (eventmap st e o).events ++
      outputs (eventmap st e o).state (eventmap st e o).output es

/-! ## Theorems -/

/-- The comparison `equal` holds exactly when type, code and value agree. -/
theorem equal_iff (a b : input_event) :
    equal a b = true ↔ a.type = b.type ∧ a.code = b.code ∧ a.value = b.value := by
  simp [equal, and_assoc]

/-- The release of a key other than the tap-candidate key leaves a release (value 0) as the
recorded last key event, and does not touch the latch. -/
theorem release_other_key (st : State) (t : timeval) (X : Nat) (o : Buffer)
    (hX : X ≠ KEY_LEFTCTRL) :
    (eventmap st (key_event t X 0) o).state.prev_key_event.value = 0 ∧
    (eventmap st (key_event t X 0) o).state.other_modifiers = st.other_modifiers := by
  by_cases h1 : X = 1
  · subst h1
    simp [eventmap, equal, key_event, designated, esc_down, esc_up, esc_repeat, tilde_up,
      Function.update]
  by_cases h2 : X = 56
  · subst h2
    simp [eventmap, equal, key_event, designated, esc_down, esc_up, esc_repeat, leftalt_down,
      leftalt_up, Function.update]
  by_cases h3 : X = 100
  · subst h3
    simp [eventmap, equal, key_event, designated, esc_down, esc_up, esc_repeat, leftalt_down,
      leftalt_up, rightalt_down, rightalt_up, Function.update]
  by_cases h4 : X = 42
  · subst h4
    simp [eventmap, equal, key_event, designated, esc_down, esc_up, esc_repeat, leftalt_down,
      leftalt_up, rightalt_down, rightalt_up, leftshift_down, leftshift_up, Function.update]
  by_cases h5 : X = 54
  · subst h5
    simp [eventmap, equal, key_event, designated, esc_down, esc_up, esc_repeat, leftalt_down,
      leftalt_up, rightalt_down, rightalt_up, leftshift_down, leftshift_up, rightshift_down,
      rightshift_up, Function.update]
  simp [eventmap, equal, key_event, designated, esc_down, esc_up, esc_repeat, leftalt_down,
    leftalt_up, rightalt_down, rightalt_up, leftshift_down, leftshift_up, rightshift_down,
    rightshift_up, ctrl_down, ctrl_up, ctrl_repeat, Function.update, h1, h2, h3, h4, h5, hX]

/-- A tap-candidate release whose recorded last key event is not a press is passed on
alone. -/
theorem ctrl_up_not_tap (st : State) (t : timeval) (o : Buffer)
    (h : st.prev_key_event.value ≠ 1) :
    (eventmap st (key_event t KEY_LEFTCTRL 0) o).num_events = 1 ∧
    (eventmap st (key_event t KEY_LEFTCTRL 0) o).events = [key_event t KEY_LEFTCTRL 0] := by
  simp [eventmap, equal, key_event, designated, esc_down, esc_up, esc_repeat, leftalt_down,
    leftalt_up, rightalt_down, rightalt_up, leftshift_down, leftshift_up, rightshift_down,
    rightshift_up, ctrl_down, ctrl_up, ctrl_repeat, tilde_down, tilde_up, tilde_repeat,
    ev_syn_report, Result.events, List.range_succ, Function.update, h]

/-- C1 (tap scenario): from any state in which none of the five flags consulted at press time
is set, a `KEY_LEFTCTRL` press followed by a `KEY_LEFTCTRL` release makes `eventmap` return,
for the release, count 5 and the outputs `ctrl_up`, `ev_syn_report`, `esc_down`,
`ev_syn_report`, `esc_up`, in this order. -/
theorem tap_scenario (st : State) (t₁ t₂ : timeval) (o₁ o₂ : Buffer)
    (hla : st.leftalt_is_down = false) (hra : st.rightalt_is_down = false)
    (hls : st.leftshift_is_down = false) (hrs : st.rightshift_is_down = false)
    (hesc : st.esc_is_down = false) :
    (eventmap (eventmap st (key_event t₁ KEY_LEFTCTRL 1) o₁).state
        (key_event t₂ KEY_LEFTCTRL 0) o₂).num_events = 5 ∧
    (eventmap (eventmap st (key_event t₁ KEY_LEFTCTRL 1) o₁).state
        (key_event t₂ KEY_LEFTCTRL 0) o₂).events
      = [ctrl_up, ev_syn_report, esc_down, ev_syn_report, esc_up] := by
  simp [eventmap, equal, key_event, designated, esc_down, esc_up, esc_repeat, leftalt_down,
    leftalt_up, rightalt_down, rightalt_up, leftshift_down, leftshift_up, rightshift_down,
    rightshift_up, ctrl_down, ctrl_up, ctrl_repeat, tilde_down, tilde_up, tilde_repeat,
    ev_syn_report, Result.events, List.range_succ, Function.update, hla, hra, hls, hrs, hesc]

/-- The tap scenario at the start state, with concrete timestamps. -/
theorem tap_scenario_witness :
    (eventmap (eventmap State.zero (key_event ⟨10, 0⟩ KEY_LEFTCTRL 1) blank).state
        (key_event ⟨10, 500⟩ KEY_LEFTCTRL 0) blank).num_events = 5 ∧
    (eventmap (eventmap State.zero (key_event ⟨10, 0⟩ KEY_LEFTCTRL 1) blank).state
        (key_event ⟨10, 500⟩ KEY_LEFTCTRL 0) blank).events
      = [ctrl_up, ev_syn_report, esc_down, ev_syn_report, esc_up] :=
  tap_scenario State.zero ⟨10, 0⟩ ⟨10, 500⟩ blank blank rfl rfl rfl rfl rfl

/-- C2 (interleaved-key scenario): from any state with no modifier flag set and for any key
code `X` other than `KEY_LEFTCTRL`, after `KEY_LEFTCTRL` press, `X` press, `X` release, the
`KEY_LEFTCTRL` release makes `eventmap` return exactly one event, the release itself,
unchanged: no `KEY_ESC` is synthesized. -/
theorem interleaved_key_scenario (st : State) (X : Nat) (t₁ t₂ t₃ t₄ : timeval)
    (o₁ o₂ o₃ o₄ : Buffer)
    (_hla : st.leftalt_is_down = false) (_hra : st.rightalt_is_down = false)
    (_hls : st.leftshift_is_down = false) (_hrs : st.rightshift_is_down = false)
    (_hesc : st.esc_is_down = false) (hX : X ≠ KEY_LEFTCTRL) :
    (eventmap (eventmap (eventmap (eventmap st (key_event t₁ KEY_LEFTCTRL 1) o₁).state
        (key_event t₂ X 1) o₂).state (key_event t₃ X 0) o₃).state
        (key_event t₄ KEY_LEFTCTRL 0) o₄).num_events = 1 ∧
    (eventmap (eventmap (eventmap (eventmap st (key_event t₁ KEY_LEFTCTRL 1) o₁).state
        (key_event t₂ X 1) o₂).state (key_event t₃ X 0) o₃).state
        (key_event t₄ KEY_LEFTCTRL 0) o₄).events = [key_event t₄ KEY_LEFTCTRL 0] := by
  apply ctrl_up_not_tap
  rw [(release_other_key _ t₃ X o₃ hX).1]
  decide

/-- The interleaved-key scenario at the start state with `X = 30` (the key `A`). -/
theorem interleaved_key_scenario_witness :
    (30 : Nat) ≠ KEY_LEFTCTRL ∧
    (eventmap (eventmap (eventmap (eventmap State.zero (key_event ⟨1, 0⟩ KEY_LEFTCTRL 1)
        blank).state (key_event ⟨2, 0⟩ 30 1) blank).state (key_event ⟨3, 0⟩ 30 0) blank).state
        (key_event ⟨4, 0⟩ KEY_LEFTCTRL 0) blank).events = [key_event ⟨4, 0⟩ KEY_LEFTCTRL 0] :=
  ⟨by decide,
   (interleaved_key_scenario State.zero 30 ⟨1, 0⟩ ⟨2, 0⟩ ⟨3, 0⟩ ⟨4, 0⟩ blank blank blank blank
      rfl rfl rfl rfl rfl (by decide)).2⟩

/-- C3 (chord scenario): from any state, after `KEY_LEFTSHIFT` press and `KEY_LEFTCTRL`
press, the `KEY_LEFTCTRL` release makes `eventmap` return exactly one event, the release
itself, unchanged. -/
theorem chord_scenario (st : State) (t₁ t₂ t₃ : timeval) (o₁ o₂ o₃ : Buffer) :
    (eventmap (eventmap (eventmap st (key_event t₁ KEY_LEFTSHIFT 1) o₁).state
        (key_event t₂ KEY_LEFTCTRL 1) o₂).state (key_event t₃ KEY_LEFTCTRL 0) o₃).num_events = 1 ∧
    (eventmap (eventmap (eventmap st (key_event t₁ KEY_LEFTSHIFT 1) o₁).state
        (key_event t₂ KEY_LEFTCTRL 1) o₂).state (key_event t₃ KEY_LEFTCTRL 0) o₃).events
      = [key_event t₃ KEY_LEFTCTRL 0] := by
  simp [eventmap, equal, key_event, designated, esc_down, esc_up, esc_repeat, leftalt_down,
    leftalt_up, rightalt_down, rightalt_up, leftshift_down, leftshift_up, rightshift_down,
    rightshift_up, ctrl_down, ctrl_up, ctrl_repeat, tilde_down, tilde_up, tilde_repeat,
    ev_syn_report, Result.events, List.range_succ, Function.update]

/-- C4 (swap): in any state, a `KEY_ESC` key event with value 0, 1 or 2 makes `eventmap`
return count 1 with the single output `(EV_KEY, KEY_GRAVE, value)`, and none of the seven
flags (the modifier flags and the latch `other_modifiers`) changes. -/
theorem esc_swapped_to_grave (st : State) (t : timeval) (v : Int) (o : Buffer)
    (hv : v = 0 ∨ v = 1 ∨ v = 2) :
    (eventmap st (key_event t KEY_ESC v) o).num_events = 1 ∧
    (eventmap st (key_event t KEY_ESC v) o).events = [designated EV_KEY KEY_GRAVE v] ∧
    (eventmap st (key_event t KEY_ESC v) o).state.leftalt_is_down = st.leftalt_is_down ∧
    (eventmap st (key_event t KEY_ESC v) o).state.rightalt_is_down = st.rightalt_is_down ∧
    (eventmap st (key_event t KEY_ESC v) o).state.leftshift_is_down = st.leftshift_is_down ∧
    (eventmap st (key_event t KEY_ESC v) o).state.rightshift_is_down = st.rightshift_is_down ∧
    (eventmap st (key_event t KEY_ESC v) o).state.esc_is_down = st.esc_is_down ∧
    (eventmap st (key_event t KEY_ESC v) o).state.capslock_is_down = st.capslock_is_down ∧
    (eventmap st (key_event t KEY_ESC v) o).state.other_modifiers = st.other_modifiers := by
  rcases hv with rfl | rfl | rfl <;>
  simp [eventmap, equal, key_event, designated, esc_down, esc_up, esc_repeat, leftalt_down,
    leftalt_up, rightalt_down, rightalt_up, leftshift_down, leftshift_up, rightshift_down,
    rightshift_up, ctrl_down, ctrl_up, ctrl_repeat, tilde_down, tilde_up, tilde_repeat,
    ev_syn_report, Result.events, List.range_succ, Function.update]

/-- The swap at a `KEY_ESC` repeat (value 2) in the start state. -/
theorem esc_swapped_to_grave_witness :
    ((2 : Int) = 0 ∨ (2 : Int) = 1 ∨ (2 : Int) = 2) ∧
    (eventmap State.zero (key_event ⟨7, 0⟩ KEY_ESC 2) blank).events = [tilde_repeat] :=
  ⟨by decide,
   (esc_swapped_to_grave State.zero ⟨7, 0⟩ 2 blank (by decide)).2.1⟩

/-- C5 (non-key events): for any state and any event whose type is not `EV_KEY`, `eventmap`
returns count 0 when the event is `(EV_MSC, MSC_SCAN)` and otherwise count 1 with the input
itself as the output; in both cases the whole state is unchanged. -/
theorem non_key_events (st : State) (input : input_event) (o : Buffer)
    (h : input.type ≠ EV_KEY) :
    ((input.type = EV_MSC ∧ input.code = MSC_SCAN) →
      (eventmap st input o).num_events = 0 ∧ (eventmap st input o).events = []) ∧
    (¬ (input.type = EV_MSC ∧ input.code = MSC_SCAN) →
      (eventmap st input o).num_events = 1 ∧ (eventmap st input o).events = [input]) ∧
    (eventmap st input o).state = st := by
  refine ⟨fun hm => ?_, fun hm => ?_, ?_⟩
  · simp [eventmap, hm, Result.events]
  · simp [eventmap, hm, h, Result.events, List.range_succ]
  · by_cases hm : input.type = EV_MSC ∧ input.code = MSC_SCAN
    · simp [eventmap, hm]
    · simp [eventmap, hm, h]

/-- A synchronization report passes through and leaves the start state as it is. -/
theorem non_key_events_witness :
    ev_syn_report.type ≠ EV_KEY ∧
    (eventmap State.zero ev_syn_report blank).events = [ev_syn_report] ∧
    (eventmap State.zero ev_syn_report blank).state = State.zero :=
  ⟨by decide,
   ((non_key_events State.zero ev_syn_report blank (by decide)).2.1 (by decide)).2,
   (non_key_events State.zero ev_syn_report blank (by decide)).2.2⟩

/-- C6: in any state, the `KEY_LEFTCTRL` repeat event `(EV_KEY, KEY_LEFTCTRL, 2)` makes
`eventmap` return count 0. -/
theorem ctrl_repeat_dropped (st : State) (t : timeval) (o : Buffer) :
    (eventmap st (key_event t KEY_LEFTCTRL 2) o).num_events = 0 ∧
    (eventmap st (key_event t KEY_LEFTCTRL 2) o).events = [] := by
  simp [eventmap, equal, key_event, designated, esc_down, esc_up, esc_repeat, leftalt_down,
    leftalt_up, rightalt_down, rightalt_up, leftshift_down, leftshift_up, rightshift_down,
    rightshift_up, ctrl_down, ctrl_up, ctrl_repeat, tilde_down, tilde_up, tilde_repeat,
    ev_syn_report, Result.events, List.range_succ, Function.update]

/-- C7 (unrecognized keys pass through, the swap is one-way): in any state, an `EV_KEY`
event whose code is none of `KEY_ESC`, `KEY_LEFTCTRL`, `KEY_LEFTALT`, `KEY_RIGHTALT`,
`KEY_LEFTSHIFT`, `KEY_RIGHTSHIFT` makes `eventmap` return count 1 with the input itself as
the output, and none of the seven flags changes. -/
theorem unrecognized_keys_pass_through (st : State) (input : input_event) (o : Buffer)
    (hk : input.type = EV_KEY)
    (h1 : input.code ≠ KEY_ESC) (h2 : input.code ≠ KEY_LEFTCTRL)
    (h3 : input.code ≠ KEY_LEFTALT) (h4 : input.code ≠ KEY_RIGHTALT)
    (h5 : input.code ≠ KEY_LEFTSHIFT) (h6 : input.code ≠ KEY_RIGHTSHIFT) :
    (eventmap st input o).num_events = 1 ∧
    (eventmap st input o).events = [input] ∧
    (eventmap st input o).state.leftalt_is_down = st.leftalt_is_down ∧
    (eventmap st input o).state.rightalt_is_down = st.rightalt_is_down ∧
    (eventmap st input o).state.leftshift_is_down = st.leftshift_is_down ∧
    (eventmap st input o).state.rightshift_is_down = st.rightshift_is_down ∧
    (eventmap st input o).state.esc_is_down = st.esc_is_down ∧
    (eventmap st input o).state.capslock_is_down = st.capslock_is_down ∧
    (eventmap st input o).state.other_modifiers = st.other_modifiers := by
  simp [eventmap, equal, key_event, designated, esc_down, esc_up, esc_repeat, leftalt_down,
    leftalt_up, rightalt_down, rightalt_up, leftshift_down, leftshift_up, rightshift_down,
    rightshift_up, ctrl_down, ctrl_up, ctrl_repeat, tilde_down, tilde_up, tilde_repeat,
    ev_syn_report, Result.events, List.range_succ, Function.update, hk, h1, h2, h3, h4, h5, h6]

/-- A `KEY_GRAVE` press is not swapped back to `KEY_ESC`: it passes through. -/
theorem unrecognized_keys_pass_through_witness :
    tilde_down.type = EV_KEY ∧ tilde_down.code ≠ KEY_ESC ∧
    (eventmap State.zero tilde_down blank).events = [tilde_down] :=
  ⟨by decide, by decide,
   (unrecognized_keys_pass_through State.zero tilde_down blank (by decide) (by decide)
      (by decide) (by decide) (by decide) (by decide) (by decide)).2.1⟩


/-- Every key code is one of the six codes `eventmap` recognizes, or none of them. -/
theorem code_cases (c : Nat) :
    c = 1 ∨ c = 56 ∨ c = 100 ∨ c = 42 ∨ c = 54 ∨ c = 29 ∨
      (c ≠ 1 ∧ c ≠ 56 ∧ c ≠ 100 ∧ c ≠ 42 ∧ c ≠ 54 ∧ c ≠ 29) := by
  omega

/-- Every value is a release, a press, a repeat, or none of them. -/
theorem value_cases (v : Int) : v = 0 ∨ v = 1 ∨ v = 2 ∨ (v ≠ 0 ∧ v ≠ 1 ∧ v ≠ 2) := by
  omega

/-- One call of `eventmap` sets a modifier's flag on its press, clears it on its release and
leaves it alone on every other event. -/
theorem held_step (M : Modifier) (st : State) (e : input_event) (o : Buffer) :
    M.held (eventmap st e o).state =
      if M.is_press e then true else if M.is_release e then false else M.held st := by
  obtain ⟨t, ty, c, v⟩ := e
  by_cases hk : ty = 1
  · subst hk
    rcases code_cases c with rfl | rfl | rfl | rfl | rfl | rfl | ⟨h1, h2, h3, h4, h5, h6⟩ <;>
    rcases value_cases v with rfl | rfl | rfl | ⟨g0, g1, g2⟩ <;>
    cases M <;>
    simp [Modifier.held, Modifier.is_press, Modifier.is_release, Modifier.code, eventmap,
      equal, designated, esc_down, esc_up, esc_repeat, leftalt_down,
      leftalt_up, rightalt_down, rightalt_up, leftshift_down, leftshift_up, rightshift_down,
      rightshift_up, ctrl_down, ctrl_up, ctrl_repeat, tilde_down, tilde_up, tilde_repeat,
      ev_syn_report, *] <;>
    split_ifs <;> simp
  · by_cases hm : ty = 4 ∧ c = 4 <;>
    cases M <;>
    simp [Modifier.held, Modifier.is_press, Modifier.is_release, Modifier.code, eventmap,
      equal, designated, hk, hm]

/-- After a sequence of events a modifier's flag is what its last press or release in the
sequence made it, and its old value when the sequence has neither. -/
theorem held_run (M : Modifier) (es : List input_event) :
    ∀ (st : State) (o : Buffer), M.held (run st o es) = (M.last_action es).getD (M.held st) := by
  induction es with
  | nil => intro st o; simp [run, Modifier.last_action]
  | cons e es ih =>
    intro st o
    rw [run, ih, held_step]
    cases h : M.last_action es with
    | some b => simp [Modifier.last_action, h]
    | none =>
      by_cases hp : M.is_press e = true
      · simp [Modifier.last_action, h, hp]
      · by_cases hr : M.is_release e = true
        · simp [Modifier.last_action, h, hp, hr]
        · simp [Modifier.last_action, h, hp, hr]

/-- C8 (modifier flags): for each of the four modifiers and any state, `eventmap` sets the
modifier's flag on its press, clears it on its release and leaves it unchanged on every other
event; hence after any sequence of events that has a press or release of the modifier, the
flag is true exactly when the last of them is a press. -/
theorem modifier_flags (M : Modifier) (st : State) :
    (∀ t o, M.held (eventmap st (key_event t M.code 1) o).state = true) ∧
    (∀ t o, M.held (eventmap st (key_event t M.code 0) o).state = false) ∧
    (∀ e o, M.is_press e = false → M.is_release e = false →
      M.held (eventmap st e o).state = M.held st) ∧
    (∀ es o b, M.last_action es = some b → M.held (run st o es) = b) := by
  refine ⟨fun t o => ?_, fun t o => ?_, fun e o hp hr => ?_, fun es o b h => ?_⟩
  · rw [held_step]
    cases M <;> simp [Modifier.is_press, Modifier.code, key_event, equal, designated]
  · rw [held_step]
    cases M <;>
    simp [Modifier.is_press, Modifier.is_release, Modifier.code, key_event, equal, designated]
  · rw [held_step, hp, hr]
    simp
  · rw [held_run, h]
    rfl

/-- Left-shift pressed, released and pressed again among other keys: the flag is set. -/
theorem modifier_flags_witness :
    Modifier.leftshift.last_action
        [leftshift_down, tilde_down, leftshift_up, ctrl_repeat, leftshift_down, tilde_up]
      = some true ∧
    Modifier.leftshift.held (run State.zero blank
        [leftshift_down, tilde_down, leftshift_up, ctrl_repeat, leftshift_down, tilde_up])
      = true :=
  ⟨by decide,
   (modifier_flags Modifier.leftshift State.zero).2.2.2 _ blank true (by decide)⟩


/-- The count `eventmap` returns is 0, 1 or 5. -/
theorem num_events_cases (st : State) (e : input_event) (o : Buffer) :
    (eventmap st e o).num_events = 0 ∨ (eventmap st e o).num_events = 1 ∨
      (eventmap st e o).num_events = 5 := by
  obtain ⟨t, ty, c, v⟩ := e
  by_cases hk : ty = 1
  · subst hk
    rcases code_cases c with rfl | rfl | rfl | rfl | rfl | rfl | ⟨h1, h2, h3, h4, h5, h6⟩ <;>
    rcases value_cases v with rfl | rfl | rfl | ⟨g0, g1, g2⟩ <;>
    simp [eventmap, equal, designated, esc_down, esc_up, esc_repeat, leftalt_down,
      leftalt_up, rightalt_down, rightalt_up, leftshift_down, leftshift_up, rightshift_down,
      rightshift_up, ctrl_down, ctrl_up, ctrl_repeat, tilde_down, tilde_up, tilde_repeat,
      ev_syn_report, *] <;>
    split_ifs <;> simp
  · by_cases hm : ty = 4 ∧ c = 4 <;>
    simp [eventmap, hk, hm]

/-- No call of `eventmap` writes a slot of `output[]` at index 5 or above. -/
theorem high_slots_untouched (st : State) (e : input_event) (o : Buffer) (i : Nat)
    (hi : 5 ≤ i) : (eventmap st e o).output i = o i := by
  have i0 : i ≠ 0 := by omega
  have i1 : i ≠ 1 := by omega
  have i2 : i ≠ 2 := by omega
  have i3 : i ≠ 3 := by omega
  have i4 : i ≠ 4 := by omega
  obtain ⟨t, ty, c, v⟩ := e
  by_cases hk : ty = 1
  · subst hk
    rcases code_cases c with rfl | rfl | rfl | rfl | rfl | rfl | ⟨h1, h2, h3, h4, h5, h6⟩ <;>
    rcases value_cases v with rfl | rfl | rfl | ⟨g0, g1, g2⟩ <;>
    simp [eventmap, Function.update, equal, designated, esc_down, esc_up, esc_repeat, leftalt_down,
      leftalt_up, rightalt_down, rightalt_up, leftshift_down, leftshift_up, rightshift_down,
      rightshift_up, ctrl_down, ctrl_up, ctrl_repeat, tilde_down, tilde_up, tilde_repeat,
      ev_syn_report, *] <;>
    split_ifs <;> simp [*]
  · by_cases hm : ty = 4 ∧ c = 4 <;>
    simp [eventmap, Function.update, hk, hm, i0]

/-- The slots below the returned count hold what this call wrote there, whatever the array
held before. -/
theorem low_slots_written (st : State) (e : input_event) (o o' : Buffer) (i : Nat)
    (hi : i < (eventmap st e o).num_events) :
    (eventmap st e o').output i = (eventmap st e o).output i := by
  obtain ⟨t, ty, c, v⟩ := e
  by_cases hk : ty = 1
  · subst hk
    by_cases htap : st.other_modifiers = false ∧
        (st.prev_key_event.type = EV_KEY ∧ st.prev_key_event.code = KEY_LEFTCTRL) ∧
          st.prev_key_event.value = 1 <;>
    rcases code_cases c with rfl | rfl | rfl | rfl | rfl | rfl | ⟨h1, h2, h3, h4, h5, h6⟩ <;>
    rcases value_cases v with rfl | rfl | rfl | ⟨g0, g1, g2⟩ <;>
    simp [eventmap, Function.update, equal, designated, esc_down, esc_up, esc_repeat, leftalt_down,
      leftalt_up, rightalt_down, rightalt_up, leftshift_down, leftshift_up, rightshift_down,
      rightshift_up, ctrl_down, ctrl_up, ctrl_repeat, tilde_down, tilde_up, tilde_repeat,
      ev_syn_report, *] at hi ⊢ <;>
    split_ifs <;>
    first
      | rfl
      | (exfalso; omega)
  · by_cases hm : ty = 4 ∧ c = 4
    · simp [eventmap, hk, hm] at hi
    · simp [eventmap, hk, hm] at hi ⊢
      subst hi
      simp


/-- Two calls of `eventmap` whose inputs agree in type, code and value and whose states
agree up to the timestamp of the recorded last key event return the same count, outputs that
agree in type, code and value, and states that agree in the same way. -/
theorem eventmap_congr (st st' : State) (e e' : input_event) (o o' : Buffer)
    (hs : State.agree st st') (he : same_fields e e') :
    (eventmap st' e' o').num_events = (eventmap st e o).num_events ∧
    List.Forall₂ same_fields (eventmap st e o).events (eventmap st' e' o').events ∧
    State.agree (eventmap st e o).state (eventmap st' e' o').state := by
  obtain ⟨t, ty, c, v⟩ := e
  obtain ⟨t', ty', c', v'⟩ := e'
  obtain ⟨cl, ls, rs, la, ra, esc, om, ⟨pt, pty, pc, pv⟩⟩ := st
  obtain ⟨cl', ls', rs', la', ra', esc', om', ⟨pt', pty', pc', pv'⟩⟩ := st'
  simp only [State.agree, same_fields] at hs he
  obtain ⟨rfl, rfl, rfl, rfl, rfl, rfl, rfl, rfl, rfl, rfl⟩ := hs
  obtain ⟨rfl, rfl, rfl⟩ := he
  by_cases hk : ty = 1
  · subst hk
    rcases code_cases c with rfl | rfl | rfl | rfl | rfl | rfl | ⟨h1, h2, h3, h4, h5, h6⟩ <;>
    rcases value_cases v with rfl | rfl | rfl | ⟨g0, g1, g2⟩ <;>
    simp [eventmap, Function.update, Result.events, List.range_succ, State.agree, same_fields,
      equal, designated, esc_down, esc_up, esc_repeat, leftalt_down,
      leftalt_up, rightalt_down, rightalt_up, leftshift_down, leftshift_up, rightshift_down,
      rightshift_up, ctrl_down, ctrl_up, ctrl_repeat, tilde_down, tilde_up, tilde_repeat,
      ev_syn_report, *] <;>
    split_ifs <;>
    simp [Function.update, Result.events, List.range_succ, same_fields, ev_syn_report,
      designated]
  · by_cases hm : ty = 4 ∧ c = 4 <;>
    simp [eventmap, Function.update, Result.events, List.range_succ, State.agree, same_fields,
      hk, hm]


/-- What `eventmap` records: after a key event that produced at least one output the
recorded last key event is the last output, whole (timestamp included); after every other
call it is what it was. -/
theorem prev_key_event_recorded (st : State) (e : input_event) (o : Buffer) :
    (e.type = EV_KEY → 0 < (eventmap st e o).num_events →
      (eventmap st e o).state.prev_key_event
        = (eventmap st e o).output ((eventmap st e o).num_events - 1)) ∧
    (¬ (e.type = EV_KEY ∧ 0 < (eventmap st e o).num_events) →
      (eventmap st e o).state.prev_key_event = st.prev_key_event) := by
  obtain ⟨t, ty, c, v⟩ := e
  by_cases hk : ty = 1
  · subst hk
    rcases code_cases c with rfl | rfl | rfl | rfl | rfl | rfl | ⟨h1, h2, h3, h4, h5, h6⟩ <;>
    rcases value_cases v with rfl | rfl | rfl | ⟨g0, g1, g2⟩ <;>
    simp [eventmap, Function.update, equal, designated, esc_down, esc_up, esc_repeat, leftalt_down,
      leftalt_up, rightalt_down, rightalt_up, leftshift_down, leftshift_up, rightshift_down,
      rightshift_up, ctrl_down, ctrl_up, ctrl_repeat, tilde_down, tilde_up, tilde_repeat,
      ev_syn_report, *] <;>
    split_ifs <;>
    first
      | (simp [Function.update]; done)
      | (exfalso; simp at *)
  · by_cases hm : ty = 4 ∧ c = 4 <;>
    simp [eventmap, hk, hm]

/-- C9, amended: for every input event, state and array contents `eventmap` returns a count
that is 0, 1 or 5 (so at most 5), writes no slot of `output[]` at index 5 or above, leaves
in every slot below the count a value it wrote itself, and the count, the type/code/value of
the outputs, and the flags and the type/code/value of the recorded last key event of the next
state are determined by the input's type/code/value and by the flags and the type/code/value
of the recorded last key event of the current state alone. The timestamp of the recorded last
key event is not so determined: after a key event that produced at least one output the
recorded last key event is the last output, whole, so it carries the input's timestamp
whenever that last output is the input itself; after every other call the recorded last key
event is unchanged. -/
theorem eventmap_bounded_and_determined (st : State) (input : input_event)
    (output : Buffer) :
    ((eventmap st input output).num_events = 0 ∨ (eventmap st input output).num_events = 1 ∨
      (eventmap st input output).num_events = 5) ∧
    (eventmap st input output).num_events ≤ 5 ∧
    (∀ i, 5 ≤ i → (eventmap st input output).output i = output i) ∧
    (∀ output' i, i < (eventmap st input output).num_events →
      (eventmap st input output').output i = (eventmap st input output).output i) ∧
    (∀ st' input' output', State.agree st st' → same_fields input input' →
      (eventmap st' input' output').num_events = (eventmap st input output).num_events ∧
      List.Forall₂ same_fields (eventmap st input output).events
        (eventmap st' input' output').events ∧
      State.agree (eventmap st input output).state (eventmap st' input' output').state) ∧
    (input.type = EV_KEY → 0 < (eventmap st input output).num_events →
      (eventmap st input output).state.prev_key_event
        = (eventmap st input output).output ((eventmap st input output).num_events - 1)) ∧
    (¬ (input.type = EV_KEY ∧ 0 < (eventmap st input output).num_events) →
      (eventmap st input output).state.prev_key_event = st.prev_key_event) ∧
    (input.type = EV_KEY → 0 < (eventmap st input output).num_events →
      (eventmap st input output).output ((eventmap st input output).num_events - 1) = input →
      (eventmap st input output).state.prev_key_event.time = input.time) := by
  refine ⟨num_events_cases st input output, ?_,
    fun i hi => high_slots_untouched st input output i hi,
    fun output' i hi => low_slots_written st input output output' i hi,
    fun st' input' output' hs he => eventmap_congr st st' input input' output output' hs he,
    (prev_key_event_recorded st input output).1,
    (prev_key_event_recorded st input output).2,
    fun hk hn hl => ?_⟩
  · rcases num_events_cases st input output with h | h | h <;> omega
  · rw [(prev_key_event_recorded st input output).1 hk hn, hl]

/-- Two presses of the key `A` that differ only in their timestamps, from the start state:
same count, next states that agree up to the recorded timestamp, and the recorded last key
event carries the timestamp of the press that was fed. -/
theorem eventmap_bounded_and_determined_witness :
    State.agree State.zero State.zero ∧
    same_fields (key_event ⟨1, 0⟩ 30 1) (key_event ⟨2, 0⟩ 30 1) ∧
    (eventmap State.zero (key_event ⟨2, 0⟩ 30 1) blank).num_events
      = (eventmap State.zero (key_event ⟨1, 0⟩ 30 1) blank).num_events ∧
    State.agree (eventmap State.zero (key_event ⟨1, 0⟩ 30 1) blank).state
      (eventmap State.zero (key_event ⟨2, 0⟩ 30 1) blank).state ∧
    (eventmap State.zero (key_event ⟨1, 0⟩ 30 1) blank).state.prev_key_event.time
      = (key_event ⟨1, 0⟩ 30 1).time :=
  ⟨by decide, by decide,
   ((eventmap_bounded_and_determined State.zero (key_event ⟨1, 0⟩ 30 1) blank).2.2.2.2.1
      State.zero (key_event ⟨2, 0⟩ 30 1) blank (by decide) (by decide)).1,
   ((eventmap_bounded_and_determined State.zero (key_event ⟨1, 0⟩ 30 1) blank).2.2.2.2.1
      State.zero (key_event ⟨2, 0⟩ 30 1) blank (by decide) (by decide)).2.2,
   (eventmap_bounded_and_determined State.zero (key_event ⟨1, 0⟩ 30 1) blank).2.2.2.2.2.2.2
      (by decide) (by decide) (by decide)⟩

/-- C9 as stated fails: two presses of the key `A` with the same type, code and value but
different timestamps, fed to the same state, leave different next states, because the
recorded last key event is a copy of the whole input, timestamp included. -/
theorem next_state_keeps_input_timestamp :
    (key_event ⟨1, 0⟩ 30 1).type = (key_event ⟨2, 0⟩ 30 1).type ∧
    (key_event ⟨1, 0⟩ 30 1).code = (key_event ⟨2, 0⟩ 30 1).code ∧
    (key_event ⟨1, 0⟩ 30 1).value = (key_event ⟨2, 0⟩ 30 1).value ∧
    (eventmap State.zero (key_event ⟨1, 0⟩ 30 1) blank).state
      ≠ (eventmap State.zero (key_event ⟨2, 0⟩ 30 1) blank).state ∧
    (eventmap State.zero (key_event ⟨1, 0⟩ 30 1) blank).state.prev_key_event.time = ⟨1, 0⟩ ∧
    (eventmap State.zero (key_event ⟨2, 0⟩ 30 1) blank).state.prev_key_event.time = ⟨2, 0⟩ := by
  decide

/-- The write loop neither acquires nor releases a resource. -/
theorem write_events_log (w : Nat → Int) (es : List input_event) :
    ∀ n, acquisitions (write_events w es n).2.2 = [] ∧
      releases (write_events w es n).2.2 = [] := by
  induction es with
  | nil => intro n; simp [write_events, acquisitions, releases]
  | cons e es ih =>
    intro n
    have h := ih (n + 1)
    simp only [acquisitions, releases] at h
    by_cases hw : w n < 0
    · simp [write_events, acquisitions, releases, Entry.acquires, Entry.releases, hw]
    · simp [write_events, acquisitions, releases, Entry.acquires, Entry.releases, hw, h]

/-- The read loop neither acquires nor releases a resource. -/
theorem read_loop_log (w : Nat → Int) (reads : List (Int × input_event)) :
    ∀ sync st o n, acquisitions (read_loop w reads sync st o n).log = [] ∧
      releases (read_loop w reads sync st o n).log = [] := by
  induction reads with
  | nil => intro sync st o n; simp [read_loop, acquisitions, releases]
  | cons r rest ih =>
    intro sync st o n
    obtain ⟨rc, input⟩ := r
    simp only [read_loop]
    split_ifs with h1 h2 h3 h4
    · have h := ih true st o n
      simp only [acquisitions, releases] at h
      simp [acquisitions, releases, Entry.acquires, Entry.releases, h]
    · have h := ih false st o n
      simp only [acquisitions, releases] at h
      simp [acquisitions, releases, Entry.acquires, Entry.releases, h]
    · simp [acquisitions, releases, Entry.acquires, Entry.releases]
    · have h := ih false (eventmap st input o).state (eventmap st input o).output
        (write_events w (eventmap st input o).events n).2.1
      have hw := write_events_log w (eventmap st input o).events n
      simp only [acquisitions, releases] at h hw
      simp [acquisitions, releases, Entry.acquires, Entry.releases, h, hw]
    · have hw := write_events_log w (eventmap st input o).events n
      simp only [acquisitions, releases] at hw
      simp [acquisitions, releases, Entry.acquires, Entry.releases, hw]


/-- C10 (resource unwind): for every script of call results, the log of `eventmap_loop`
shows, at each setup step that can fail and at each exit of the loop, the releases of exactly
the resources acquired by the earlier successful steps, each once and in reverse order of
acquisition (destroy the synthetic device, ungrab, free the device, close the descriptor);
every release comes after every acquisition, and while the loop is still reading nothing is
released. -/
theorem resource_unwind (sc : Script) (st : State) (o : Buffer) :
    (sc.open_rc < 0 →
      acquisitions (eventmap_loop sc st o).log = [] ∧ releases (eventmap_loop sc st o).log = []) ∧
    (0 ≤ sc.open_rc → sc.new_from_fd_rc < 0 →
      acquisitions (eventmap_loop sc st o).log = [.fd] ∧ releases (eventmap_loop sc st o).log = [.fd]) ∧
    (0 ≤ sc.open_rc → 0 ≤ sc.new_from_fd_rc → sc.grab_rc < 0 →
      acquisitions (eventmap_loop sc st o).log = [.fd, .dev] ∧ releases (eventmap_loop sc st o).log = [.dev, .fd]) ∧
    (0 ≤ sc.open_rc → 0 ≤ sc.new_from_fd_rc → 0 ≤ sc.grab_rc →
      (sc.enable_type_rc < 0 ∨ sc.enable_esc_rc < 0 ∨ sc.enable_capslock_rc < 0 ∨
        sc.enable_leftctrl_rc < 0 ∨ sc.disable_wlan_rc < 0 ∨ sc.uinput_create_rc < 0) →
      acquisitions (eventmap_loop sc st o).log = [.fd, .dev, .grab] ∧
      releases (eventmap_loop sc st o).log = [.grab, .dev, .fd]) ∧
    (0 ≤ sc.open_rc → 0 ≤ sc.new_from_fd_rc → 0 ≤ sc.grab_rc → 0 ≤ sc.enable_type_rc → 0 ≤ sc.enable_esc_rc → 0 ≤ sc.enable_capslock_rc → 0 ≤ sc.enable_leftctrl_rc → 0 ≤ sc.disable_wlan_rc → 0 ≤ sc.uinput_create_rc →
      (eventmap_loop sc st o).result.isSome = true →
      acquisitions (eventmap_loop sc st o).log = [.fd, .dev, .grab, .udev] ∧
      releases (eventmap_loop sc st o).log = [.udev, .grab, .dev, .fd]) ∧
    (0 ≤ sc.open_rc → 0 ≤ sc.new_from_fd_rc → 0 ≤ sc.grab_rc → 0 ≤ sc.enable_type_rc → 0 ≤ sc.enable_esc_rc → 0 ≤ sc.enable_capslock_rc → 0 ≤ sc.enable_leftctrl_rc → 0 ≤ sc.disable_wlan_rc → 0 ≤ sc.uinput_create_rc →
      (eventmap_loop sc st o).result = none →
      acquisitions (eventmap_loop sc st o).log = [.fd, .dev, .grab, .udev] ∧
      releases (eventmap_loop sc st o).log = []) ∧
    ((eventmap_loop sc st o).result.isSome = true →
      releases (eventmap_loop sc st o).log = (acquisitions (eventmap_loop sc st o).log).reverse ∧
      ∃ pre post, (eventmap_loop sc st o).log = pre ++ post ∧ releases pre = [] ∧ acquisitions post = []) := by
  have hr := read_loop_log sc.write_rc sc.reads false st o 0
  simp only [acquisitions, releases] at hr
  by_cases h1 : sc.open_rc < 0
  · have g1 : ¬ 0 ≤ sc.open_rc := not_le.mpr h1
    refine ⟨?_, ?_, ?_, ?_, ?_, ?_, fun _ => ⟨?_,
      [⟨.sys_open, sc.open_rc⟩],
      [], ?_, ?_, ?_⟩⟩ <;>
    simp [eventmap_loop, acquisitions, releases, Entry.acquires, Entry.releases, teardown_fd,
      teardown_dev, teardown_grab, teardown_udev,
      h1, g1]
  have g1 : 0 ≤ sc.open_rc := not_lt.mp h1
  by_cases h2 : sc.new_from_fd_rc < 0
  · have g2 : ¬ 0 ≤ sc.new_from_fd_rc := not_le.mpr h2
    refine ⟨?_, ?_, ?_, ?_, ?_, ?_, fun _ => ⟨?_,
      [⟨.sys_open, sc.open_rc⟩,
        ⟨.libevdev_new_from_fd, sc.new_from_fd_rc⟩],
      teardown_fd, ?_, ?_, ?_⟩⟩ <;>
    simp [eventmap_loop, acquisitions, releases, Entry.acquires, Entry.releases, teardown_fd,
      teardown_dev, teardown_grab, teardown_udev,
      h1, g1, h2, g2]
  have g2 : 0 ≤ sc.new_from_fd_rc := not_lt.mp h2
  by_cases h3 : sc.grab_rc < 0
  · have g3 : ¬ 0 ≤ sc.grab_rc := not_le.mpr h3
    refine ⟨?_, ?_, ?_, ?_, ?_, ?_, fun _ => ⟨?_,
      [⟨.sys_open, sc.open_rc⟩,
        ⟨.libevdev_new_from_fd, sc.new_from_fd_rc⟩,
        ⟨.sleep, 0⟩, ⟨.libevdev_grab, sc.grab_rc⟩],
      teardown_dev, ?_, ?_, ?_⟩⟩ <;>
    simp [eventmap_loop, acquisitions, releases, Entry.acquires, Entry.releases, teardown_fd,
      teardown_dev, teardown_grab, teardown_udev,
      h1, g1, h2, g2, h3, g3]
  have g3 : 0 ≤ sc.grab_rc := not_lt.mp h3
  by_cases h4 : sc.enable_type_rc < 0
  · have g4 : ¬ 0 ≤ sc.enable_type_rc := not_le.mpr h4
    refine ⟨?_, ?_, ?_, ?_, ?_, ?_, fun _ => ⟨?_,
      [⟨.sys_open, sc.open_rc⟩,
        ⟨.libevdev_new_from_fd, sc.new_from_fd_rc⟩,
        ⟨.sleep, 0⟩, ⟨.libevdev_grab, sc.grab_rc⟩,
        ⟨.libevdev_enable_event_type EV_KEY, sc.enable_type_rc⟩],
      teardown_grab, ?_, ?_, ?_⟩⟩ <;>
    simp [eventmap_loop, acquisitions, releases, Entry.acquires, Entry.releases, teardown_fd,
      teardown_dev, teardown_grab, teardown_udev,
      h1, g1, h2, g2, h3, g3, h4, g4]
  have g4 : 0 ≤ sc.enable_type_rc := not_lt.mp h4
  by_cases h5 : sc.enable_esc_rc < 0
  · have g5 : ¬ 0 ≤ sc.enable_esc_rc := not_le.mpr h5
    refine ⟨?_, ?_, ?_, ?_, ?_, ?_, fun _ => ⟨?_,
      [⟨.sys_open, sc.open_rc⟩,
        ⟨.libevdev_new_from_fd, sc.new_from_fd_rc⟩,
        ⟨.sleep, 0⟩, ⟨.libevdev_grab, sc.grab_rc⟩,
        ⟨.libevdev_enable_event_type EV_KEY, sc.enable_type_rc⟩,
        ⟨.libevdev_enable_event_code EV_KEY KEY_ESC, sc.enable_esc_rc⟩],
      teardown_grab, ?_, ?_, ?_⟩⟩ <;>
    simp [eventmap_loop, acquisitions, releases, Entry.acquires, Entry.releases, teardown_fd,
      teardown_dev, teardown_grab, teardown_udev,
      h1, g1, h2, g2, h3, g3, h4, g4, h5, g5]
  have g5 : 0 ≤ sc.enable_esc_rc := not_lt.mp h5
  by_cases h6 : sc.enable_capslock_rc < 0
  · have g6 : ¬ 0 ≤ sc.enable_capslock_rc := not_le.mpr h6
    refine ⟨?_, ?_, ?_, ?_, ?_, ?_, fun _ => ⟨?_,
      [⟨.sys_open, sc.open_rc⟩,
        ⟨.libevdev_new_from_fd, sc.new_from_fd_rc⟩,
        ⟨.sleep, 0⟩, ⟨.libevdev_grab, sc.grab_rc⟩,
        ⟨.libevdev_enable_event_type EV_KEY, sc.enable_type_rc⟩,
        ⟨.libevdev_enable_event_code EV_KEY KEY_ESC, sc.enable_esc_rc⟩,
        ⟨.libevdev_enable_event_code EV_KEY KEY_CAPSLOCK, sc.enable_capslock_rc⟩],
      teardown_grab, ?_, ?_, ?_⟩⟩ <;>
    simp [eventmap_loop, acquisitions, releases, Entry.acquires, Entry.releases, teardown_fd,
      teardown_dev, teardown_grab, teardown_udev,
      h1, g1, h2, g2, h3, g3, h4, g4, h5, g5, h6, g6]
  have g6 : 0 ≤ sc.enable_capslock_rc := not_lt.mp h6
  by_cases h7 : sc.enable_leftctrl_rc < 0
  · have g7 : ¬ 0 ≤ sc.enable_leftctrl_rc := not_le.mpr h7
    refine ⟨?_, ?_, ?_, ?_, ?_, ?_, fun _ => ⟨?_,
      [⟨.sys_open, sc.open_rc⟩,
        ⟨.libevdev_new_from_fd, sc.new_from_fd_rc⟩,
        ⟨.sleep, 0⟩, ⟨.libevdev_grab, sc.grab_rc⟩,
        ⟨.libevdev_enable_event_type EV_KEY, sc.enable_type_rc⟩,
        ⟨.libevdev_enable_event_code EV_KEY KEY_ESC, sc.enable_esc_rc⟩,
        ⟨.libevdev_enable_event_code EV_KEY KEY_CAPSLOCK, sc.enable_capslock_rc⟩,
        ⟨.libevdev_enable_event_code EV_KEY KEY_LEFTCTRL, sc.enable_leftctrl_rc⟩],
      teardown_grab, ?_, ?_, ?_⟩⟩ <;>
    simp [eventmap_loop, acquisitions, releases, Entry.acquires, Entry.releases, teardown_fd,
      teardown_dev, teardown_grab, teardown_udev,
      h1, g1, h2, g2, h3, g3, h4, g4, h5, g5, h6, g6, h7, g7]
  have g7 : 0 ≤ sc.enable_leftctrl_rc := not_lt.mp h7
  by_cases h8 : sc.disable_wlan_rc < 0
  · have g8 : ¬ 0 ≤ sc.disable_wlan_rc := not_le.mpr h8
    refine ⟨?_, ?_, ?_, ?_, ?_, ?_, fun _ => ⟨?_,
      [⟨.sys_open, sc.open_rc⟩,
        ⟨.libevdev_new_from_fd, sc.new_from_fd_rc⟩,
        ⟨.sleep, 0⟩, ⟨.libevdev_grab, sc.grab_rc⟩,
        ⟨.libevdev_enable_event_type EV_KEY, sc.enable_type_rc⟩,
        ⟨.libevdev_enable_event_code EV_KEY KEY_ESC, sc.enable_esc_rc⟩,
        ⟨.libevdev_enable_event_code EV_KEY KEY_CAPSLOCK, sc.enable_capslock_rc⟩,
        ⟨.libevdev_enable_event_code EV_KEY KEY_LEFTCTRL, sc.enable_leftctrl_rc⟩,
        ⟨.libevdev_disable_event_code EV_KEY KEY_WLAN, sc.disable_wlan_rc⟩],
      teardown_grab, ?_, ?_, ?_⟩⟩ <;>
    simp [eventmap_loop, acquisitions, releases, Entry.acquires, Entry.releases, teardown_fd,
      teardown_dev, teardown_grab, teardown_udev,
      h1, g1, h2, g2, h3, g3, h4, g4, h5, g5, h6, g6, h7, g7, h8, g8]
  have g8 : 0 ≤ sc.disable_wlan_rc := not_lt.mp h8
  by_cases h9 : sc.uinput_create_rc < 0
  · have g9 : ¬ 0 ≤ sc.uinput_create_rc := not_le.mpr h9
    refine ⟨?_, ?_, ?_, ?_, ?_, ?_, fun _ => ⟨?_,
      [⟨.sys_open, sc.open_rc⟩,
        ⟨.libevdev_new_from_fd, sc.new_from_fd_rc⟩,
        ⟨.sleep, 0⟩, ⟨.libevdev_grab, sc.grab_rc⟩,
        ⟨.libevdev_enable_event_type EV_KEY, sc.enable_type_rc⟩,
        ⟨.libevdev_enable_event_code EV_KEY KEY_ESC, sc.enable_esc_rc⟩,
        ⟨.libevdev_enable_event_code EV_KEY KEY_CAPSLOCK, sc.enable_capslock_rc⟩,
        ⟨.libevdev_enable_event_code EV_KEY KEY_LEFTCTRL, sc.enable_leftctrl_rc⟩,
        ⟨.libevdev_disable_event_code EV_KEY KEY_WLAN, sc.disable_wlan_rc⟩,
        ⟨.libevdev_uinput_create_from_device, sc.uinput_create_rc⟩],
      teardown_grab, ?_, ?_, ?_⟩⟩ <;>
    simp [eventmap_loop, acquisitions, releases, Entry.acquires, Entry.releases, teardown_fd,
      teardown_dev, teardown_grab, teardown_udev,
      h1, g1, h2, g2, h3, g3, h4, g4, h5, g5, h6, g6, h7, g7, h8, g8, h9, g9]
  have g9 : 0 ≤ sc.uinput_create_rc := not_lt.mp h9
  cases hres : (read_loop sc.write_rc sc.reads false st o 0).result with
  | none =>
    refine ⟨?_, ?_, ?_, ?_, ?_, ?_, ?_⟩ <;>
    simp [eventmap_loop, acquisitions, releases, Entry.acquires, Entry.releases, teardown_fd,
      teardown_dev, teardown_grab, teardown_udev,
      h1, g1, h2, g2, h3, g3, h4, g4, h5, g5, h6, g6, h7, g7, h8, g8, h9, g9, hres, hr]
  | some v =>
    have hl : eventmap_loop sc st o =
        { result := some v,
          log :=
          [⟨.sys_open, sc.open_rc⟩,
           ⟨.libevdev_new_from_fd, sc.new_from_fd_rc⟩,
           ⟨.sleep, 0⟩, ⟨.libevdev_grab, sc.grab_rc⟩,
           ⟨.libevdev_enable_event_type EV_KEY, sc.enable_type_rc⟩,
           ⟨.libevdev_enable_event_code EV_KEY KEY_ESC, sc.enable_esc_rc⟩,
           ⟨.libevdev_enable_event_code EV_KEY KEY_CAPSLOCK, sc.enable_capslock_rc⟩,
           ⟨.libevdev_enable_event_code EV_KEY KEY_LEFTCTRL, sc.enable_leftctrl_rc⟩,
           ⟨.libevdev_disable_event_code EV_KEY KEY_WLAN, sc.disable_wlan_rc⟩,
           ⟨.libevdev_uinput_create_from_device, sc.uinput_create_rc⟩]
            ++ (read_loop sc.write_rc sc.reads false st o 0).log ++ teardown_udev,
          state := (read_loop sc.write_rc sc.reads false st o 0).state } := by
      simp only [eventmap_loop, h1, h2, h3, h4, h5, h6, h7, h8, h9, if_false, hres]
      simp
    rw [hl]
    refine ⟨?_, ?_, ?_, ?_, ?_, ?_, fun _ => ⟨?_,
      [⟨.sys_open, sc.open_rc⟩,
        ⟨.libevdev_new_from_fd, sc.new_from_fd_rc⟩,
        ⟨.sleep, 0⟩, ⟨.libevdev_grab, sc.grab_rc⟩,
        ⟨.libevdev_enable_event_type EV_KEY, sc.enable_type_rc⟩,
        ⟨.libevdev_enable_event_code EV_KEY KEY_ESC, sc.enable_esc_rc⟩,
        ⟨.libevdev_enable_event_code EV_KEY KEY_CAPSLOCK, sc.enable_capslock_rc⟩,
        ⟨.libevdev_enable_event_code EV_KEY KEY_LEFTCTRL, sc.enable_leftctrl_rc⟩,
        ⟨.libevdev_disable_event_code EV_KEY KEY_WLAN, sc.disable_wlan_rc⟩,
        ⟨.libevdev_uinput_create_from_device, sc.uinput_create_rc⟩]
        ++ (read_loop sc.write_rc sc.reads false st o 0).log,
      teardown_udev, ?_, ?_, ?_⟩⟩ <;>
    simp [acquisitions, releases, Entry.acquires, Entry.releases, teardown_fd,
      teardown_dev, teardown_grab, teardown_udev,
      h1, g1, h2, g2, h3, g3, h4, g4, h5, g5, h6, g6, h7, g7, h8, g8, h9, g9, hr]

/-- The unwind on a session whose device is unplugged after one key press: the loop is left
by `break`, and the four resources are released in reverse order. -/
theorem resource_unwind_witness :
    (eventmap_loop unplugged State.zero blank).result.isSome = true ∧
    acquisitions (eventmap_loop unplugged State.zero blank).log = [.fd, .dev, .grab, .udev] ∧
    releases (eventmap_loop unplugged State.zero blank).log = [.udev, .grab, .dev, .fd] :=
  ⟨by decide,
   (resource_unwind unplugged State.zero blank).2.2.2.2.1 (by decide) (by decide) (by decide)
     (by decide) (by decide) (by decide) (by decide) (by decide) (by decide) (by decide)⟩

/-- C15 (tap decision in a single step): in any state, the `KEY_LEFTCTRL` release makes
`eventmap` return the five events `ctrl_up`, `ev_syn_report`, `esc_down`, `ev_syn_report`,
`esc_up` if and only if `other_modifiers` is false and the recorded last key event equals the
`KEY_LEFTCTRL` press in type, code and value; in every other state it returns exactly one
event, the release itself, unchanged. -/
theorem tap_decision (st : State) (t : timeval) (o : Buffer) :
    ((eventmap st (key_event t KEY_LEFTCTRL 0) o).events
        = [ctrl_up, ev_syn_report, esc_down, ev_syn_report, esc_up] ↔
      (st.other_modifiers = false ∧ equal st.prev_key_event ctrl_down = true)) ∧
    ((st.other_modifiers = false ∧ equal st.prev_key_event ctrl_down = true) →
      (eventmap st (key_event t KEY_LEFTCTRL 0) o).num_events = 5) ∧
    (¬ (st.other_modifiers = false ∧ equal st.prev_key_event ctrl_down = true) →
      (eventmap st (key_event t KEY_LEFTCTRL 0) o).num_events = 1 ∧
      (eventmap st (key_event t KEY_LEFTCTRL 0) o).events = [key_event t KEY_LEFTCTRL 0]) := by
  by_cases h : st.other_modifiers = false ∧ equal st.prev_key_event ctrl_down = true
  · have hc : st.other_modifiers = false ∧
        (st.prev_key_event.type = EV_KEY ∧ st.prev_key_event.code = KEY_LEFTCTRL) ∧
          st.prev_key_event.value = 1 := by
      simpa [equal, ctrl_down, designated] using h
    simp [eventmap, equal, key_event, designated, esc_down, esc_up, esc_repeat, leftalt_down,
      leftalt_up, rightalt_down, rightalt_up, leftshift_down, leftshift_up, rightshift_down,
      rightshift_up, ctrl_down, ctrl_up, ctrl_repeat, tilde_down, tilde_up, tilde_repeat,
      ev_syn_report, Result.events, List.range_succ, Function.update, hc]
  · have hc : ¬ (st.other_modifiers = false ∧
        (st.prev_key_event.type = EV_KEY ∧ st.prev_key_event.code = KEY_LEFTCTRL) ∧
          st.prev_key_event.value = 1) := by
      simpa [equal, ctrl_down, designated] using h
    simp [eventmap, equal, key_event, designated, esc_down, esc_up, esc_repeat, leftalt_down,
      leftalt_up, rightalt_down, rightalt_up, leftshift_down, leftshift_up, rightshift_down,
      rightshift_up, ctrl_down, ctrl_up, ctrl_repeat, tilde_down, tilde_up, tilde_repeat,
      ev_syn_report, Result.events, List.range_succ, Function.update, hc]

/-- The tap decision in the state left by a `KEY_LEFTCTRL` press from the start state. -/
theorem tap_decision_witness :
    ((eventmap State.zero ctrl_down blank).state.other_modifiers = false ∧
      equal (eventmap State.zero ctrl_down blank).state.prev_key_event ctrl_down = true) ∧
    (eventmap (eventmap State.zero ctrl_down blank).state
      (key_event ⟨3, 0⟩ KEY_LEFTCTRL 0) blank).num_events = 5 :=
  ⟨by decide,
   (tap_decision (eventmap State.zero ctrl_down blank).state ⟨3, 0⟩ blank).2.1 (by decide)⟩

/-- C16 (press latch): in any state, the `KEY_LEFTCTRL` press makes `eventmap` return count 1
with the input itself as the output, sets `other_modifiers` to the disjunction of the
left-alt, right-alt, left-shift and right-shift flags and `esc_is_down` as they are at that
instant, leaves those five flags (and `capslock_is_down`) unchanged, and records the press as
the last key event. -/
theorem press_latch (st : State) (t : timeval) (o : Buffer) :
    (eventmap st (key_event t KEY_LEFTCTRL 1) o).num_events = 1 ∧
    (eventmap st (key_event t KEY_LEFTCTRL 1) o).events = [key_event t KEY_LEFTCTRL 1] ∧
    (eventmap st (key_event t KEY_LEFTCTRL 1) o).state.other_modifiers =
      (st.leftalt_is_down || st.rightalt_is_down || st.leftshift_is_down ||
        st.rightshift_is_down || st.esc_is_down) ∧
    (eventmap st (key_event t KEY_LEFTCTRL 1) o).state.leftalt_is_down = st.leftalt_is_down ∧
    (eventmap st (key_event t KEY_LEFTCTRL 1) o).state.rightalt_is_down = st.rightalt_is_down ∧
    (eventmap st (key_event t KEY_LEFTCTRL 1) o).state.leftshift_is_down
      = st.leftshift_is_down ∧
    (eventmap st (key_event t KEY_LEFTCTRL 1) o).state.rightshift_is_down
      = st.rightshift_is_down ∧
    (eventmap st (key_event t KEY_LEFTCTRL 1) o).state.esc_is_down = st.esc_is_down ∧
    (eventmap st (key_event t KEY_LEFTCTRL 1) o).state.capslock_is_down
      = st.capslock_is_down ∧
    (eventmap st (key_event t KEY_LEFTCTRL 1) o).state.prev_key_event
      = key_event t KEY_LEFTCTRL 1 := by
  simp [eventmap, equal, key_event, designated, esc_down, esc_up, esc_repeat, leftalt_down,
    leftalt_up, rightalt_down, rightalt_up, leftshift_down, leftshift_up, rightshift_down,
    rightshift_up, ctrl_down, ctrl_up, ctrl_repeat, tilde_down, tilde_up, tilde_repeat,
    ev_syn_report, Result.events, List.range_succ, Function.update]

/-- A repeat of `KEY_LEFTCTRL` and an event that is not a key event leave the whole state
as it is. -/
theorem hold_filler_state (st : State) (e : input_event) (o : Buffer) (h : hold_filler e) :
    (eventmap st e o).state = st := by
  obtain ⟨t, ty, c, v⟩ := e
  rcases h with h | h
  · simp only [equal_iff, ctrl_repeat, designated] at h
    obtain ⟨rfl, rfl, rfl⟩ := h
    simp [eventmap, equal, designated, esc_down, esc_up, esc_repeat, leftalt_down,
      leftalt_up, rightalt_down, rightalt_up, leftshift_down, leftshift_up, rightshift_down,
      rightshift_up, ctrl_down, ctrl_up, ctrl_repeat, tilde_down, tilde_up, tilde_repeat,
      ev_syn_report]
  · by_cases hm : ty = 4 ∧ c = 4
    · simp [eventmap, hm]
    · simp only [] at h
      simp [eventmap, hm, h]

/-- A sequence of such events leaves the whole state as it is. -/
theorem hold_filler_run (s : List input_event) (hs : ∀ e ∈ s, hold_filler e) :
    ∀ (st : State) (o : Buffer), run st o s = st := by
  induction s with
  | nil => intro st o; rfl
  | cons e es ih =>
    intro st o
    have he : hold_filler e := hs e (List.mem_cons_self e es)
    rw [run, hold_filler_state st e o he]
    exact ih (fun x hx => hs x (List.mem_cons_of_mem e hx)) st _

/-- C18 (long hold still taps): from any state with none of the five flags read at press time
set, after the `KEY_LEFTCTRL` press and any finite sequence made only of `KEY_LEFTCTRL`
repeats and of events that are not key events, the `KEY_LEFTCTRL` release makes `eventmap`
return the five-event tap; the sequence changes neither a flag nor the recorded last key
event. -/
theorem long_hold_still_taps (st : State) (s : List input_event) (t₁ t₂ : timeval)
    (o₁ o₂ o₃ : Buffer)
    (hla : st.leftalt_is_down = false) (hra : st.rightalt_is_down = false)
    (hls : st.leftshift_is_down = false) (hrs : st.rightshift_is_down = false)
    (hesc : st.esc_is_down = false) (hs : ∀ e ∈ s, hold_filler e) :
    run (eventmap st (key_event t₁ KEY_LEFTCTRL 1) o₁).state o₂ s
      = (eventmap st (key_event t₁ KEY_LEFTCTRL 1) o₁).state ∧
    (eventmap (run (eventmap st (key_event t₁ KEY_LEFTCTRL 1) o₁).state o₂ s)
        (key_event t₂ KEY_LEFTCTRL 0) o₃).num_events = 5 ∧
    (eventmap (run (eventmap st (key_event t₁ KEY_LEFTCTRL 1) o₁).state o₂ s)
        (key_event t₂ KEY_LEFTCTRL 0) o₃).events
      = [ctrl_up, ev_syn_report, esc_down, ev_syn_report, esc_up] := by
  rw [hold_filler_run s hs]
  simp [eventmap, equal, key_event, designated, esc_down, esc_up, esc_repeat, leftalt_down,
    leftalt_up, rightalt_down, rightalt_up, leftshift_down, leftshift_up, rightshift_down,
    rightshift_up, ctrl_down, ctrl_up, ctrl_repeat, tilde_down, tilde_up, tilde_repeat,
    ev_syn_report, Result.events, List.range_succ, Function.update, hla, hra, hls, hrs, hesc]

/-- A long hold from the start state: press, two repeats framed by synchronization reports
and a scan code, release. -/
theorem long_hold_still_taps_witness :
    (∀ e ∈ [ev_syn_report, designated EV_MSC MSC_SCAN 29, ctrl_repeat, ev_syn_report,
        ctrl_repeat, ev_syn_report], hold_filler e) ∧
    (eventmap (run (eventmap State.zero (key_event ⟨1, 0⟩ KEY_LEFTCTRL 1) blank).state blank
        [ev_syn_report, designated EV_MSC MSC_SCAN 29, ctrl_repeat, ev_syn_report,
          ctrl_repeat, ev_syn_report])
        (key_event ⟨2, 0⟩ KEY_LEFTCTRL 0) blank).events
      = [ctrl_up, ev_syn_report, esc_down, ev_syn_report, esc_up] :=
  ⟨by simp [hold_filler, equal, ctrl_repeat, ev_syn_report, designated],
   (long_hold_still_taps State.zero _ ⟨1, 0⟩ ⟨2, 0⟩ blank blank blank rfl rfl rfl rfl rfl
      (by simp [hold_filler, equal, ctrl_repeat, ev_syn_report, designated])).2.2⟩

/-- One call of `eventmap` keeps the latch fresh. -/
theorem latch_fresh_step (st : State) (e : input_event) (o : Buffer) (h : latch_fresh st) :
    latch_fresh (eventmap st e o).state := by
  obtain ⟨t, ty, c, v⟩ := e
  obtain ⟨cl, ls, rs, la, ra, esc, om, ⟨pt, pty, pc, pv⟩⟩ := st
  simp only [latch_fresh, equal, ctrl_down, designated] at h ⊢
  obtain ⟨h1, h2⟩ := h
  subst h1
  by_cases hk : ty = 1
  · subst hk
    rcases code_cases c with rfl | rfl | rfl | rfl | rfl | rfl | ⟨k1, k2, k3, k4, k5, k6⟩ <;>
    rcases value_cases v with rfl | rfl | rfl | ⟨g0, g1, g2⟩ <;>
    simp [eventmap, Function.update, equal, designated, esc_down, esc_up, esc_repeat, leftalt_down,
      leftalt_up, rightalt_down, rightalt_up, leftshift_down, leftshift_up, rightshift_down,
      rightshift_up, ctrl_down, ctrl_up, ctrl_repeat, tilde_down, tilde_up, tilde_repeat,
      ev_syn_report, *] <;>
    first
      | (intro a b d; exact h2 (by simp [a, b, d]))
      | (split_ifs <;> simp_all [Function.update])
  · by_cases hm : ty = 4 ∧ c = 4
    · simpa [eventmap, hm] using h2
    · simpa [eventmap, hm, hk] using h2

/-- Every reachable state has a fresh latch. -/
theorem reachable_latch_fresh (st : State) (h : Reachable st) : latch_fresh st := by
  induction h with
  | zero => simp [latch_fresh, State.zero, equal, ctrl_down, designated]
  | step st e o _ ih => exact latch_fresh_step st e o ih

/-- The state after any sequence of events fed to the start state is reachable. -/
theorem reachable_run (es : List input_event) :
    ∀ (st : State) (o : Buffer), Reachable st → Reachable (run st o es) := by
  induction es with
  | nil => intro st o h; exact h
  | cons e es ih =>
    intro st o h
    rw [run]
    exact ih _ _ (Reachable.step st e o h)

/-- The `KEY_LEFTCTRL` release yields the five events exactly when the latch is clear and the
recorded last key event equals the `KEY_LEFTCTRL` press. -/
theorem ctrl_up_tap_iff (st : State) (t : timeval) (o : Buffer) :
    (eventmap st (key_event t KEY_LEFTCTRL 0) o).events
        = [ctrl_up, ev_syn_report, esc_down, ev_syn_report, esc_up] ↔
      (st.other_modifiers = false ∧ equal st.prev_key_event ctrl_down = true) := by
  by_cases h : st.other_modifiers = false ∧ equal st.prev_key_event ctrl_down = true
  · have hc : st.other_modifiers = false ∧
        (st.prev_key_event.type = EV_KEY ∧ st.prev_key_event.code = KEY_LEFTCTRL) ∧
          st.prev_key_event.value = 1 := by
      simpa [equal, ctrl_down, designated] using h
    simp [eventmap, equal, key_event, designated, esc_down, esc_up, esc_repeat, leftalt_down,
      leftalt_up, rightalt_down, rightalt_up, leftshift_down, leftshift_up, rightshift_down,
      rightshift_up, ctrl_down, ctrl_up, ctrl_repeat, tilde_down, tilde_up, tilde_repeat,
      ev_syn_report, Result.events, List.range_succ, Function.update, hc]
  · have hc : ¬ (st.other_modifiers = false ∧
        (st.prev_key_event.type = EV_KEY ∧ st.prev_key_event.code = KEY_LEFTCTRL) ∧
          st.prev_key_event.value = 1) := by
      simpa [equal, ctrl_down, designated] using h
    simp [eventmap, equal, key_event, designated, esc_down, esc_up, esc_repeat, leftalt_down,
      leftalt_up, rightalt_down, rightalt_up, leftshift_down, leftshift_up, rightshift_down,
      rightshift_up, ctrl_down, ctrl_up, ctrl_repeat, tilde_down, tilde_up, tilde_repeat,
      ev_syn_report, Result.events, List.range_succ, Function.update, hc]

/-- C17 (the latch is never stale): in every state reachable from the zero-initialised state,
`esc_is_down` is false and, whenever the recorded last key event equals the `KEY_LEFTCTRL`
press, `other_modifiers` equals the disjunction of the current left-alt, right-alt,
left-shift and right-shift flags; so in a reachable state the `KEY_LEFTCTRL` release
produces the five-event tap if and only if the recorded last key event is the `KEY_LEFTCTRL`
press and none of the four modifiers is held. -/
theorem latch_never_stale (st : State) (h : Reachable st) :
    st.esc_is_down = false ∧
    (equal st.prev_key_event ctrl_down = true →
      st.other_modifiers =
        (st.leftalt_is_down || st.rightalt_is_down || st.leftshift_is_down ||
          st.rightshift_is_down)) ∧
    (∀ t o, (eventmap st (key_event t KEY_LEFTCTRL 0) o).events
        = [ctrl_up, ev_syn_report, esc_down, ev_syn_report, esc_up] ↔
      (equal st.prev_key_event ctrl_down = true ∧ st.leftalt_is_down = false ∧
        st.rightalt_is_down = false ∧ st.leftshift_is_down = false ∧
        st.rightshift_is_down = false)) := by
  have hf := reachable_latch_fresh st h
  refine ⟨hf.1, hf.2, fun t o => ?_⟩
  rw [ctrl_up_tap_iff]
  constructor
  · rintro ⟨h0, hp⟩
    have h3 := (hf.2 hp).symm
    rw [h0] at h3
    simp only [Bool.or_eq_false_iff, and_assoc] at h3
    exact ⟨hp, h3⟩
  · rintro ⟨hp, a, b, c, d⟩
    refine ⟨?_, hp⟩
    rw [hf.2 hp, a, b, c, d]
    rfl

/-- The state after left-shift press and `KEY_LEFTCTRL` press is reachable, its recorded last
key event is the `KEY_LEFTCTRL` press, and the latch agrees with the shift flag. -/
theorem latch_never_stale_witness :
    Reachable (run State.zero blank [leftshift_down, ctrl_down]) ∧
    (run State.zero blank [leftshift_down, ctrl_down]).esc_is_down = false ∧
    (run State.zero blank [leftshift_down, ctrl_down]).other_modifiers = true :=
  ⟨reachable_run _ _ _ Reachable.zero,
   (latch_never_stale _ (reachable_run [leftshift_down, ctrl_down] State.zero blank
      Reachable.zero)).1,
   by decide⟩

/-- The write loop succeeds exactly when none of its calls fails, it then has made one call
per event, and the device received the events before the first failing call. -/
theorem write_events_spec (w : Nat → Int) (es : List input_event) :
    ∀ n, (write_events w es n).1 = writes_ok w n es.length ∧
      ((write_events w es n).1 = true → (write_events w es n).2.1 = n + es.length) ∧
      written (write_events w es n).2.2 = (accepted w n es).map input_event.fields := by
  induction es with
  | nil => intro n; simp [write_events, writes_ok, written, accepted]
  | cons e es ih =>
    intro n
    obtain ⟨h1, h2, h3⟩ := ih (n + 1)
    simp only [written] at h3
    by_cases hw : w n < 0
    · have hw' : ¬ 0 ≤ w n := not_le.mpr hw
      simp [write_events, writes_ok, written, accepted, hw, hw']
    · have hw' : 0 ≤ w n := not_lt.mp hw
      simp only [write_events, hw, if_false, writes_ok, List.length_cons, accepted, written]
      refine ⟨by simp [h1, hw'], fun hh => ?_, ?_⟩
      · rw [h2 hh]; omega
      · simp [hw, h3, input_event.fields]

/-- The events accepted from a concatenation. -/
theorem accepted_append (w : Nat → Int) (a b : List input_event) :
    ∀ n, accepted w n (a ++ b) =
      if writes_ok w n a.length then a ++ accepted w (n + a.length) b else accepted w n a := by
  induction a with
  | nil => intro n; simp [accepted, writes_ok]
  | cons e es ih =>
    intro n
    by_cases hw : w n < 0
    · have hw' : ¬ 0 ≤ w n := not_le.mpr hw
      simp [accepted, writes_ok, hw, hw']
    · have hw' : 0 ≤ w n := not_lt.mp hw
      have hlen : n + 1 + es.length = n + (es.length + 1) := by omega
      simp only [List.cons_append, accepted, hw, if_false, writes_ok, List.length_cons, hw',
        decide_True, Bool.true_and]
      rw [List.append_eq, ih (n + 1)]
      split_ifs with h
      · rw [hlen]
      · rfl

/-- The calls over a concatenation succeed when they do over both parts. -/
theorem writes_ok_add (w : Nat → Int) (a : Nat) :
    ∀ n b, writes_ok w n (a + b) = (writes_ok w n a && writes_ok w (n + a) b) := by
  induction a with
  | zero => intro n b; simp [writes_ok]
  | succ a ih =>
    intro n b
    have h1 : a + 1 + b = (a + b) + 1 := by omega
    have h2 : n + (a + 1) = n + 1 + a := by omega
    rw [h1, writes_ok, writes_ok, ih, h2, Bool.and_assoc]

/-- The calls do not all succeed exactly when one of them fails. -/
theorem writes_ok_false_iff (w : Nat → Int) (k : Nat) :
    ∀ n, writes_ok w n k = false ↔ ∃ j, j < k ∧ w (n + j) < 0 := by
  induction k with
  | zero => intro n; simp [writes_ok]
  | succ k ih =>
    intro n
    rw [writes_ok, Bool.and_eq_false_iff, ih]
    constructor
    · rintro (h | ⟨j, hj, hw⟩)
      · exact ⟨0, by omega, by simpa using h⟩
      · exact ⟨j + 1, by omega, by
          have : n + (j + 1) = n + 1 + j := by omega
          rw [this]; exact hw⟩
    · rintro ⟨j, hj, hw⟩
      cases j with
      | zero => left; simpa using hw
      | succ j =>
        right
        refine ⟨j, by omega, ?_⟩
        have : n + 1 + j = n + (j + 1) := by omega
        rw [this]; exact hw

/-- A script with a fatal read, seen from its first result. -/
theorem fatal_read_cons (rc : Int) (input : input_event) (rest : List (Int × input_event)) :
    fatal_read ((rc, input) :: rest) =
      (decide (rc ≠ LIBEVDEV_READ_STATUS_SUCCESS ∧ rc ≠ LIBEVDEV_READ_STATUS_SYNC ∧
        rc ≠ -EAGAIN) || fatal_read rest) := by
  simp [fatal_read]

/-- The read loop against its description: what the device received, and how the loop
ends. -/
theorem read_loop_spec (w : Nat → Int) (reads : List (Int × input_event)) :
    ∀ sync st o n,
      written (read_loop w reads sync st o n).log =
        (accepted w n (expected_outputs st o reads)).map input_event.fields ∧
      (read_loop w reads sync st o n).result =
        (if writes_ok w n (expected_outputs st o reads).length = false then some 0
         else if fatal_read reads = true then some 1 else none) := by
  induction reads with
  | nil => intro sync st o n; simp [read_loop, expected_outputs, accepted, writes_ok, written,
      fatal_read]
  | cons r rest ih =>
    intro sync st o n
    obtain ⟨rc, input⟩ := r
    by_cases h1 : rc = 1
    · subst h1
      obtain ⟨ih1, ih2⟩ := ih true st o n
      simp only [written] at ih1
      simp [read_loop, expected_outputs, fatal_read_cons, written, ih1, ih2]
    by_cases h2 : rc = -11
    · subst h2
      obtain ⟨ih1, ih2⟩ := ih false st o n
      simp only [written] at ih1
      simp [read_loop, expected_outputs, fatal_read_cons, written, ih1, ih2]
    by_cases h3 : rc = 0
    · subst h3
      obtain ⟨w1, w2, w3⟩ := write_events_spec w (eventmap st input o).events n
      simp only [written] at w3
      by_cases hok : (write_events w (eventmap st input o).events n).1 = true
      · obtain ⟨ih1, ih2⟩ := ih false (eventmap st input o).state (eventmap st input o).output
          (write_events w (eventmap st input o).events n).2.1
        simp only [written] at ih1
        have hk := w1.symm.trans hok
        have hacc : accepted w n (eventmap st input o).events = (eventmap st input o).events := by
          have h := accepted_append w (eventmap st input o).events [] n
          simpa [hk, accepted] using h
        have hn := w2 hok
        rw [hn] at ih1 ih2
        simp [read_loop, expected_outputs, fatal_read_cons, written, hok, ih1, ih2, w3,
          accepted_append, writes_ok_add, hk, hacc, hn]
      · have hk : writes_ok w n (eventmap st input o).events.length = false := by
          rw [← w1]; simpa using hok
        simp [read_loop, expected_outputs, fatal_read_cons, written, hok, w3,
          accepted_append, writes_ok_add, hk]
    · simp [read_loop, expected_outputs, fatal_read_cons, written, accepted, writes_ok,
        h1, h2, h3]

/-- When every setup call succeeds, `eventmap_loop` is its `for (;;)` loop between the setup
calls and, once the loop is left, the calls from `teardown_udev` on. -/
theorem eventmap_loop_of_setup_ok (sc : Script) (st : State) (o : Buffer)
    (h : setup_ok sc) :
    (eventmap_loop sc st o).result = (read_loop sc.write_rc sc.reads false st o 0).result ∧
    (eventmap_loop sc st o).log =
      setup_log sc ++ (read_loop sc.write_rc sc.reads false st o 0).log ++
        (if (read_loop sc.write_rc sc.reads false st o 0).result.isSome then teardown_udev
         else []) ∧
    (eventmap_loop sc st o).state = (read_loop sc.write_rc sc.reads false st o 0).state := by
  obtain ⟨h1, h2, h3, h4, h5, h6, h7, h8, h9⟩ := h
  simp only [eventmap_loop, not_lt.mpr h1, not_lt.mpr h2, not_lt.mpr h3, not_lt.mpr h4,
    not_lt.mpr h5, not_lt.mpr h6, not_lt.mpr h7, not_lt.mpr h8, not_lt.mpr h9, if_false]
  cases hres : (read_loop sc.write_rc sc.reads false st o 0).result with
  | none => simp [setup_log]
  | some v => simp [setup_log]

/-- When a setup call fails, `eventmap_loop` returns 0 without having written anything. -/
theorem eventmap_loop_of_setup_failure (sc : Script) (st : State) (o : Buffer)
    (h : ¬ setup_ok sc) :
    (eventmap_loop sc st o).result = some 0 ∧ written (eventmap_loop sc st o).log = [] := by
  by_cases h1 : sc.open_rc < 0
  · simp [eventmap_loop, h1, written]
  by_cases h2 : sc.new_from_fd_rc < 0
  · simp [eventmap_loop, h1, h2, written, teardown_fd]
  by_cases h3 : sc.grab_rc < 0
  · simp [eventmap_loop, h1, h2, h3, written, teardown_fd, teardown_dev]
  by_cases h4 : sc.enable_type_rc < 0
  · simp [eventmap_loop, h1, h2, h3, h4, written, teardown_fd, teardown_dev, teardown_grab]
  by_cases h5 : sc.enable_esc_rc < 0
  · simp [eventmap_loop, h1, h2, h3, h4, h5, written, teardown_fd, teardown_dev, teardown_grab]
  by_cases h6 : sc.enable_capslock_rc < 0
  · simp [eventmap_loop, h1, h2, h3, h4, h5, h6, written, teardown_fd, teardown_dev,
      teardown_grab]
  by_cases h7 : sc.enable_leftctrl_rc < 0
  · simp [eventmap_loop, h1, h2, h3, h4, h5, h6, h7, written, teardown_fd, teardown_dev,
      teardown_grab]
  by_cases h8 : sc.disable_wlan_rc < 0
  · simp [eventmap_loop, h1, h2, h3, h4, h5, h6, h7, h8, written, teardown_fd, teardown_dev,
      teardown_grab]
  by_cases h9 : sc.uinput_create_rc < 0
  · simp [eventmap_loop, h1, h2, h3, h4, h5, h6, h7, h8, h9, written, teardown_fd,
      teardown_dev, teardown_grab]
  exact absurd ⟨not_lt.mp h1, not_lt.mp h2, not_lt.mp h3, not_lt.mp h4, not_lt.mp h5,
    not_lt.mp h6, not_lt.mp h7, not_lt.mp h8, not_lt.mp h9⟩ h

/-- C11 (read/write loop): with the reads of `eventmap_loop` scripted, the events the
synthetic device receives are the concatenation, in order, of the outputs of `eventmap` for
the events read with status SUCCESS, cut at the first failing write; a `-EAGAIN` result and
a SYNC result cause no write, no state change and no exit (the event of a SYNC result is
dropped); the loop is left at the first result that is neither SUCCESS, SYNC nor `-EAGAIN`,
or at the first failing write, and in no other way. -/
theorem read_write_loop (sc : Script) (st : State) (o : Buffer) (rc : Int)
    (input : input_event) (rest : List (Int × input_event)) (sync : Bool) (n : Nat) :
    (setup_ok sc →
      written (eventmap_loop sc st o).log =
        (accepted sc.write_rc 0 (expected_outputs st o sc.reads)).map input_event.fields) ∧
    (setup_ok sc →
      (∀ j, j < (expected_outputs st o sc.reads).length → 0 ≤ sc.write_rc j) →
      written (eventmap_loop sc st o).log =
        (expected_outputs st o sc.reads).map input_event.fields) ∧
    ((read_loop sc.write_rc ((-EAGAIN, input) :: rest) sync st o n).result
        = (read_loop sc.write_rc rest false st o n).result ∧
      (read_loop sc.write_rc ((-EAGAIN, input) :: rest) sync st o n).state
        = (read_loop sc.write_rc rest false st o n).state ∧
      (read_loop sc.write_rc ((-EAGAIN, input) :: rest) sync st o n).log
        = ⟨.libevdev_next_event sync, -EAGAIN⟩ ::
            (read_loop sc.write_rc rest false st o n).log) ∧
    ((read_loop sc.write_rc ((LIBEVDEV_READ_STATUS_SYNC, input) :: rest) sync st o n).result
        = (read_loop sc.write_rc rest true st o n).result ∧
      (read_loop sc.write_rc ((LIBEVDEV_READ_STATUS_SYNC, input) :: rest) sync st o n).state
        = (read_loop sc.write_rc rest true st o n).state ∧
      (read_loop sc.write_rc ((LIBEVDEV_READ_STATUS_SYNC, input) :: rest) sync st o n).log
        = ⟨.libevdev_next_event sync, LIBEVDEV_READ_STATUS_SYNC⟩ ::
            (read_loop sc.write_rc rest true st o n).log) ∧
    (rc ≠ LIBEVDEV_READ_STATUS_SUCCESS → rc ≠ LIBEVDEV_READ_STATUS_SYNC → rc ≠ -EAGAIN →
      (read_loop sc.write_rc ((rc, input) :: rest) sync st o n).result = some 1 ∧
      (read_loop sc.write_rc ((rc, input) :: rest) sync st o n).state = st ∧
      (read_loop sc.write_rc ((rc, input) :: rest) sync st o n).log
        = [⟨.libevdev_next_event sync, rc⟩]) ∧
    (setup_ok sc →
      (∃ j, j < (expected_outputs st o sc.reads).length ∧ sc.write_rc j < 0) →
      (eventmap_loop sc st o).result = some 0) ∧
    (setup_ok sc →
      ((eventmap_loop sc st o).result.isSome = true ↔
        (fatal_read sc.reads = true ∨
          ∃ j, j < (expected_outputs st o sc.reads).length ∧ sc.write_rc j < 0))) := by
  have hspec := read_loop_spec sc.write_rc sc.reads false st o 0
  have hfail := writes_ok_false_iff sc.write_rc (expected_outputs st o sc.reads).length 0
  simp only [Nat.zero_add] at hfail
  have hwr : ∀ h : setup_ok sc, written (eventmap_loop sc st o).log =
      written (read_loop sc.write_rc sc.reads false st o 0).log := by
    intro h
    rw [(eventmap_loop_of_setup_ok sc st o h).2.1]
    cases (read_loop sc.write_rc sc.reads false st o 0).result <;>
    simp [written, setup_log, teardown_udev, teardown_grab, teardown_dev, teardown_fd]
  refine ⟨fun h => ?_, fun h hall => ?_, ?_, ?_, fun a b c => ?_, fun h hex => ?_, fun h => ?_⟩
  · rw [hwr h, hspec.1]
  · rw [hwr h, hspec.1]
    have hok : writes_ok sc.write_rc 0 (expected_outputs st o sc.reads).length = true := by
      by_contra hk
      obtain ⟨j, hj, hw⟩ := hfail.mp (by simpa using hk)
      exact absurd (hall j hj) (not_le.mpr hw)
    have h := accepted_append sc.write_rc (expected_outputs st o sc.reads) [] 0
    simp only [List.append_nil, hok, if_true, accepted] at h
    rw [h]
  · simp [read_loop, EAGAIN, LIBEVDEV_READ_STATUS_SYNC]
  · simp [read_loop, LIBEVDEV_READ_STATUS_SYNC]
  · simp [read_loop, a, b, c]
  · rw [(eventmap_loop_of_setup_ok sc st o h).1, hspec.2, hfail.mpr hex]
    simp
  · rw [(eventmap_loop_of_setup_ok sc st o h).1, hspec.2, ← hfail]
    cases writes_ok sc.write_rc 0 (expected_outputs st o sc.reads).length <;>
    cases fatal_read sc.reads <;> simp

/-- The loop on a device that is unplugged after one `KEY_ESC` press: the synthetic device
receives the `KEY_GRAVE` press. -/
theorem read_write_loop_witness :
    setup_ok unplugged ∧
    written (eventmap_loop unplugged State.zero blank).log = [(EV_KEY, KEY_GRAVE, 1)] :=
  ⟨by decide,
   ((read_write_loop unplugged State.zero blank 0 ev_syn_report [] false 0).1
      (by decide)).trans (by decide)⟩

/-- C20 (session result): `eventmap_loop` returns 1 if and only if every setup call succeeded
and the loop was left because a read returned a status other than SUCCESS, SYNC or `-EAGAIN`
(no write having failed before); it returns 0 when a setup call fails and when a write to the
synthetic device fails; `main` then exits with status `!result`. -/
theorem session_result (sc : Script) (st : State) (o : Buffer) :
    ((eventmap_loop sc st o).result = some 1 ↔
      (setup_ok sc ∧ fatal_read sc.reads = true ∧
        ∀ j, j < (expected_outputs st o sc.reads).length → 0 ≤ sc.write_rc j)) ∧
    (¬ setup_ok sc → (eventmap_loop sc st o).result = some 0) ∧
    (setup_ok sc →
      (∃ j, j < (expected_outputs st o sc.reads).length ∧ sc.write_rc j < 0) →
      (eventmap_loop sc st o).result = some 0) ∧
    ((eventmap_loop sc st o).result = some 1 → main_with_device sc st o = some 0) ∧
    ((eventmap_loop sc st o).result = some 0 → main_with_device sc st o = some 1) := by
  have hspec := read_loop_spec sc.write_rc sc.reads false st o 0
  have hfail := writes_ok_false_iff sc.write_rc (expected_outputs st o sc.reads).length 0
  simp only [Nat.zero_add] at hfail
  have hall : (∀ j, j < (expected_outputs st o sc.reads).length → 0 ≤ sc.write_rc j) ↔
      writes_ok sc.write_rc 0 (expected_outputs st o sc.reads).length = true := by
    constructor
    · intro hh
      by_contra hk
      obtain ⟨j, hj, hw⟩ := hfail.mp (by simpa using hk)
      exact absurd (hh j hj) (not_le.mpr hw)
    · intro hk j hj
      by_contra hw
      have := hfail.mpr ⟨j, hj, not_le.mp hw⟩
      rw [hk] at this
      exact absurd this (by decide)
  refine ⟨?_, fun h => (eventmap_loop_of_setup_failure sc st o h).1, fun h hex => ?_,
    fun h => ?_, fun h => ?_⟩
  · by_cases h : setup_ok sc
    · rw [(eventmap_loop_of_setup_ok sc st o h).1, hspec.2, hall]
      cases writes_ok sc.write_rc 0 (expected_outputs st o sc.reads).length <;>
      cases fatal_read sc.reads <;> simp [h]
    · rw [(eventmap_loop_of_setup_failure sc st o h).1]
      simp [h]
  · rw [(eventmap_loop_of_setup_ok sc st o h).1, hspec.2, hfail.mpr hex]
    simp
  · simp [main_with_device, h]
  · simp [main_with_device, h]

/-- The session on a device that is unplugged after one key press returns 1, and `main`
exits with status 0. -/
theorem session_result_witness :
    (setup_ok unplugged ∧ fatal_read unplugged.reads = true) ∧
    (eventmap_loop unplugged State.zero blank).result = some 1 ∧
    main_with_device unplugged State.zero blank = some 0 :=
  ⟨by decide,
   (session_result unplugged State.zero blank).1.mpr
     ⟨by decide, by decide, fun _ _ => le_refl 0⟩,
   (session_result unplugged State.zero blank).2.2.2.1 (by decide)⟩

/-- Membership in the capability set after `libevdev_enable_event_code`. -/
theorem mem_enable (keys : List Nat) (code k : Nat) :
    k ∈ libevdev_enable_event_code keys code ↔ (k = code ∨ k ∈ keys) := by
  unfold libevdev_enable_event_code
  split_ifs with h
  · constructor
    · intro hk; exact Or.inr hk
    · rintro (rfl | hk)
      · exact h
      · exact hk
  · simp

/-- Membership in the capability set after `libevdev_disable_event_code`. -/
theorem mem_disable (keys : List Nat) (code k : Nat) :
    k ∈ libevdev_disable_event_code keys code ↔ (k ∈ keys ∧ k ≠ code) := by
  simp [libevdev_disable_event_code]

/-- C12, amended: when the five calls of the capability step succeed, the step yields a key
set, and a key code is advertised afterwards exactly when it is not `KEY_WLAN` and either the
device advertised it before or it is one of `KEY_ESC`, `KEY_CAPSLOCK`, `KEY_LEFTCTRL`; in
particular `KEY_ESC` and `KEY_LEFTCTRL` are advertised and `KEY_WLAN` is not, whatever the
device advertised before. -/
theorem capability_step_adds_and_removes (sc : Script) (keys : List Nat)
    (h1 : 0 ≤ sc.enable_type_rc) (h2 : 0 ≤ sc.enable_esc_rc)
    (h3 : 0 ≤ sc.enable_capslock_rc) (h4 : 0 ≤ sc.enable_leftctrl_rc)
    (h5 : 0 ≤ sc.disable_wlan_rc) :
    ∃ after, capability_step sc keys = some after ∧
      (∀ k, k ∈ after ↔
        (k ≠ KEY_WLAN ∧ (k ∈ keys ∨ k = KEY_ESC ∨ k = KEY_CAPSLOCK ∨ k = KEY_LEFTCTRL))) ∧
      KEY_ESC ∈ after ∧ KEY_LEFTCTRL ∈ after ∧ KEY_WLAN ∉ after := by
  refine ⟨libevdev_disable_event_code (libevdev_enable_event_code (libevdev_enable_event_code
    (libevdev_enable_event_code keys KEY_ESC) KEY_CAPSLOCK) KEY_LEFTCTRL) KEY_WLAN,
    by simp [capability_step, not_lt.mpr h1, not_lt.mpr h2, not_lt.mpr h3,
      not_lt.mpr h4, not_lt.mpr h5], fun k => ?_, ?_, ?_, ?_⟩
  · simp only [mem_disable, mem_enable]
    tauto
  · simp [mem_disable, mem_enable]
  · simp [mem_disable, mem_enable]
  · simp [mem_disable, mem_enable]

/-- The capability step on a device that advertises the key `A` and `KEY_WLAN`. -/
theorem capability_step_adds_and_removes_witness :
    (0 ≤ quiet.enable_type_rc ∧ 0 ≤ quiet.enable_esc_rc ∧ 0 ≤ quiet.enable_capslock_rc ∧
      0 ≤ quiet.enable_leftctrl_rc ∧ 0 ≤ quiet.disable_wlan_rc) ∧
    ∃ after, capability_step quiet [30, KEY_WLAN] = some after ∧
      (∀ k, k ∈ after ↔
        (k ≠ KEY_WLAN ∧
          (k ∈ [30, KEY_WLAN] ∨ k = KEY_ESC ∨ k = KEY_CAPSLOCK ∨ k = KEY_LEFTCTRL))) ∧
      KEY_ESC ∈ after ∧ KEY_LEFTCTRL ∈ after ∧ KEY_WLAN ∉ after :=
  ⟨by decide,
   capability_step_adds_and_removes quiet [30, KEY_WLAN] (by decide) (by decide)
     (by decide) (by decide) (by decide)⟩

/-- C12 as stated fails: on a device that advertises only the key `A`, the capability step
succeeds and leaves the keys `KEY_LEFTCTRL`, `KEY_CAPSLOCK`, `KEY_ESC` and `A` advertised:
`KEY_GRAVE` is not among them, `KEY_CAPSLOCK` and `A` are, so the set is not exactly
`KEY_ESC`, `KEY_GRAVE`, `KEY_LEFTCTRL`. -/
theorem capability_step_not_exact :
    capability_step quiet [30] = some [KEY_LEFTCTRL, KEY_CAPSLOCK, KEY_ESC, 30] ∧
    KEY_GRAVE ∉ [KEY_LEFTCTRL, KEY_CAPSLOCK, KEY_ESC, 30] ∧
    KEY_CAPSLOCK ∈ [KEY_LEFTCTRL, KEY_CAPSLOCK, KEY_ESC, 30] ∧
    30 ∈ [KEY_LEFTCTRL, KEY_CAPSLOCK, KEY_ESC, 30] ∧
    ¬ (∀ k, k ∈ [KEY_LEFTCTRL, KEY_CAPSLOCK, KEY_ESC, 30] ↔
        (k = KEY_ESC ∨ k = KEY_GRAVE ∨ k = KEY_LEFTCTRL)) := by
  refine ⟨by decide, by decide, by decide, by decide, fun h => ?_⟩
  have h41 := (h KEY_GRAVE).mpr (Or.inr (Or.inl rfl))
  exact absurd h41 (by decide)

/-- C13, amended: `should_grab` returns nonzero only if the device is there, has the event
type `EV_KEY` and exposes at least one of `KEY_ESC` or `KEY_CAPSLOCK` (the value returned is
then 1); `KEY_LEFTCTRL` is not consulted: two devices that differ only in whether they expose
`KEY_LEFTCTRL` get the same result. -/
theorem should_grab_requires_key (device : Option udev_device) (initial_scan : Int) :
    (should_grab device initial_scan ≠ 0 →
      should_grab device initial_scan = 1 ∧
      ∃ d, device = some d ∧ d.has_ev_key = true ∧
        (KEY_ESC ∈ d.keys ∨ KEY_CAPSLOCK ∈ d.keys)) ∧
    (∀ d keys, device = some d →
      (∀ k, k ≠ KEY_LEFTCTRL → (k ∈ keys ↔ k ∈ d.keys)) →
      should_grab (some { d with keys := keys }) initial_scan
        = should_grab device initial_scan) := by
  refine ⟨fun h => ?_, fun d keys hd hkeys => ?_⟩
  · cases device with
    | none => simp [should_grab] at h
    | some d =>
      obtain ⟨syspath, action, devnode, orc, nrc, hk, keys⟩ := d
      cases devnode with
      | none =>
        simp only [should_grab] at h
        split_ifs at h <;> exact absurd rfl h
      | some devnode =>
        simp only [should_grab] at h ⊢
        split_ifs at h ⊢ with a b c e f g
        all_goals first
          | exact absurd rfl h
          | (refine ⟨rfl, _, rfl, ?_⟩
             simpa using g)
  · subst hd
    obtain ⟨syspath, action, devnode, orc, nrc, hk, dkeys⟩ := d
    have hesc : KEY_ESC ∈ keys ↔ KEY_ESC ∈ dkeys := hkeys KEY_ESC (by decide)
    have hcaps : KEY_CAPSLOCK ∈ keys ↔ KEY_CAPSLOCK ∈ dkeys := hkeys KEY_CAPSLOCK (by decide)
    cases devnode <;> simp [should_grab, hesc, hcaps]

/-- The qualification of an ordinary keyboard that has `KEY_ESC`, and of a keyboard with
`KEY_CAPSLOCK` to which `KEY_LEFTCTRL` is added: the result does not change. -/
theorem should_grab_requires_key_witness :
    should_grab (some plugged_keyboard) 0 ≠ 0 ∧
    should_grab (some plugged_keyboard) 0 = 1 ∧
    should_grab (some { capslock_only with keys := KEY_LEFTCTRL :: capslock_only.keys }) 1
      = should_grab (some capslock_only) 1 :=
  ⟨by decide,
   ((should_grab_requires_key (some plugged_keyboard) 0).1 (by decide)).1,
   (should_grab_requires_key (some capslock_only) 1).2 capslock_only
     (KEY_LEFTCTRL :: capslock_only.keys) rfl (by intro k hk; simp [hk])⟩

/-- C13 as stated fails: a keyboard that exposes `KEY_CAPSLOCK` but neither `KEY_LEFTCTRL`
nor `KEY_ESC` is accepted on the initial scan. -/
theorem should_grab_capslock_only :
    should_grab (some capslock_only) 1 ≠ 0 ∧
    KEY_LEFTCTRL ∉ capslock_only.keys ∧ KEY_ESC ∉ capslock_only.keys := by
  decide

/-- C14 (qualification exclusions): `should_grab` returns 0 when the device is `NULL`, when
its syspath begins with `/sys/devices/virtual/input/`, when `initial_scan` is 0 and the action
is absent or differs from `add`, when the devnode is absent or does not begin with
`/dev/input/event`, when the device cannot be opened (`open` or `libevdev_new_from_fd`
fails), and when it does not have the event type `EV_KEY`; when `initial_scan` is nonzero the
action is not consulted. -/
theorem should_grab_exclusions (d : udev_device) (initial_scan : Int) :
    should_grab none initial_scan = 0 ∧
    (starts_with d.syspath virtual_devices_directory = true →
      should_grab (some d) initial_scan = 0) ∧
    (initial_scan = 0 → (d.action = none ∨ d.action ≠ some "add") →
      should_grab (some d) initial_scan = 0) ∧
    (d.devnode = none → should_grab (some d) initial_scan = 0) ∧
    (∀ devnode, d.devnode = some devnode → starts_with devnode input_prefix = false →
      should_grab (some d) initial_scan = 0) ∧
    (d.open_rc < 0 → should_grab (some d) initial_scan = 0) ∧
    (d.new_from_fd_rc < 0 → should_grab (some d) initial_scan = 0) ∧
    (d.has_ev_key = false → should_grab (some d) initial_scan = 0) ∧
    (initial_scan ≠ 0 → ∀ action,
      should_grab (some { d with action := action }) initial_scan
        = should_grab (some d) initial_scan) := by
  obtain ⟨syspath, action, devnode, orc, nrc, hk, keys⟩ := d
  refine ⟨rfl, fun h => ?_, fun h1 h2 => ?_, fun h => ?_, fun n h1 h2 => ?_, fun h => ?_,
    fun h => ?_, fun h => ?_, fun h a => ?_⟩
  · simp only [] at h
    simp [should_grab, h]
  · simp only [] at h2
    subst h1
    rcases h2 with rfl | h2
    · cases devnode <;> simp [should_grab]
    · cases devnode <;> simp [should_grab, h2]
  · simp only [] at h
    subst h
    simp [should_grab]
  · simp only [] at h1
    subst h1
    simp [should_grab, h2]
  · simp only [] at h
    cases devnode <;> simp [should_grab, h]
  · simp only [] at h
    cases devnode <;> simp [should_grab, h]
  · simp only [] at h
    subst h
    cases devnode <;> simp [should_grab]
  · cases devnode <;> simp [should_grab, h]

/-- The synthetic device of a session is not taken, at a hot-plug event or at start-up. -/
theorem should_grab_exclusions_witness :
    starts_with synthetic_keyboard.syspath virtual_devices_directory = true ∧
    should_grab (some synthetic_keyboard) 0 = 0 ∧
    should_grab (some synthetic_keyboard) 1 = 0 :=
  ⟨by decide,
   (should_grab_exclusions synthetic_keyboard 0).2.1 (by decide),
   (should_grab_exclusions synthetic_keyboard 1).2.1 (by decide)⟩

/-- A key event is not a synchronization report. -/
theorem key_not_syn (e : input_event) (h : is_key e = true) : is_syn_report e = false := by
  simp only [is_key, decide_eq_true_eq] at h
  simp [is_syn_report, h]

/-- Framing of a sequence that starts with a key event. -/
theorem well_framed_cons_key (e : input_event) (es : List input_event)
    (he : is_key e = true) :
    well_framed (e :: es) ↔ (well_framed es ∧ keys_after_syn es) := by
  constructor
  · intro h
    refine ⟨fun a x b y c hl hx hy => ?_, fun a x c hl hx => ?_⟩
    · exact h (e :: a) x b y c (by rw [hl]; rfl) hx hy
    · exact h [] e a x c (by rw [hl]; rfl) he hx
  · rintro ⟨h1, h2⟩ a x b y c hl hx hy
    cases a with
    | nil =>
      simp only [List.nil_append, List.cons.injEq] at hl
      exact h2 b y c hl.2 hy
    | cons a0 a =>
      simp only [List.cons_append, List.cons.injEq] at hl
      exact h1 a x b y c hl.2 hx hy

/-- Framing of a sequence that starts with an event that is not a key event. -/
theorem well_framed_cons_other (e : input_event) (es : List input_event)
    (he : is_key e = false) :
    well_framed (e :: es) ↔ well_framed es := by
  constructor
  · intro h a x b y c hl hx hy
    exact h (e :: a) x b y c (by rw [hl]; rfl) hx hy
  · intro h a x b y c hl hx hy
    cases a with
    | nil =>
      simp only [List.nil_append, List.cons.injEq] at hl
      rw [← hl.1, he] at hx
      exact absurd hx (by decide)
    | cons a0 a =>
      simp only [List.cons_append, List.cons.injEq] at hl
      exact h a x b y c hl.2 hx hy

/-- A sequence that starts with a key event has a key event without a report before it. -/
theorem keys_after_syn_cons_key (e : input_event) (es : List input_event)
    (he : is_key e = true) : ¬ keys_after_syn (e :: es) := by
  intro h
  obtain ⟨s, hs, _⟩ := h [] e es rfl he
  exact absurd hs (List.not_mem_nil s)

/-- After a leading synchronization report every key event has a report before it. -/
theorem keys_after_syn_cons_syn (e : input_event) (es : List input_event)
    (hk : is_key e = false) (hs : is_syn_report e = true) : keys_after_syn (e :: es) := by
  intro a x c hl hx
  cases a with
  | nil =>
    simp only [List.nil_append, List.cons.injEq] at hl
    rw [← hl.1, hk] at hx
    exact absurd hx (by decide)
  | cons a0 a =>
    simp only [List.cons_append, List.cons.injEq] at hl
    exact ⟨a0, List.mem_cons_self a0 a, by rw [← hl.1]; exact hs⟩

/-- A leading event that is neither a key event nor a report changes nothing. -/
theorem keys_after_syn_cons_other (e : input_event) (es : List input_event)
    (hk : is_key e = false) (hs : is_syn_report e = false) :
    keys_after_syn (e :: es) ↔ keys_after_syn es := by
  constructor
  · intro h a x c hl hx
    obtain ⟨s, hmem, hsyn⟩ := h (e :: a) x c (by rw [hl]; rfl) hx
    rcases List.mem_cons.mp hmem with rfl | hmem
    · rw [hs] at hsyn
      exact absurd hsyn (by decide)
    · exact ⟨s, hmem, hsyn⟩
  · intro h a x c hl hx
    cases a with
    | nil =>
      simp only [List.nil_append, List.cons.injEq] at hl
      rw [← hl.1, hk] at hx
      exact absurd hx (by decide)
    | cons a0 a =>
      simp only [List.cons_append, List.cons.injEq] at hl
      obtain ⟨s, hmem, hsyn⟩ := h a x c hl.2 hx
      exact ⟨s, List.mem_cons_of_mem a0 hmem, hsyn⟩

/-- The scan decides the framing: started with nothing pending it accepts exactly the
well-framed sequences, started with a key pending it accepts those in which moreover every
key event has a report before it. -/
theorem framed_from_iff (l : List input_event) :
    (framed_from false l = true ↔ well_framed l) ∧
    (framed_from true l = true ↔ (well_framed l ∧ keys_after_syn l)) := by
  induction l with
  | nil =>
    refine ⟨⟨fun _ a x b y c hl => ?_, fun _ => rfl⟩,
      ⟨fun _ => ⟨fun a x b y c hl => ?_, fun a x c hl => ?_⟩, fun _ => rfl⟩⟩
    · cases a <;> simp at hl
    · cases a <;> simp at hl
    · cases a <;> simp at hl
  | cons e es ih =>
    obtain ⟨ih1, ih2⟩ := ih
    by_cases hk : is_key e = true
    · have hn := keys_after_syn_cons_key e es hk
      simp only [framed_from, hk, if_true, well_framed_cons_key e es hk]
      refine ⟨by simpa using ih2, ?_⟩
      simp [hn]
    · have hk' : is_key e = false := by simpa using hk
      by_cases hs : is_syn_report e = true
      · have hq := keys_after_syn_cons_syn e es hk' hs
        simp only [framed_from, hk', hs, if_true, well_framed_cons_other e es hk']
        refine ⟨by simpa using ih1, ?_⟩
        simpa [hq] using ih1
      · have hs' : is_syn_report e = false := by simpa using hs
        simp only [framed_from, hk', hs', well_framed_cons_other e es hk',
          keys_after_syn_cons_other e es hk' hs']
        exact ⟨by simpa using ih1, by simpa using ih2⟩

/-- The outputs of one call for an event that is not a key event: nothing for a scan code,
otherwise the event itself. -/
theorem events_of_other (st : State) (e : input_event) (o : Buffer)
    (h : is_key e = false) :
    ((eventmap st e o).events = [] ∧ is_syn_report e = false) ∨
      (eventmap st e o).events = [e] := by
  obtain ⟨t, ty, c, v⟩ := e
  simp only [is_key, decide_eq_false_iff_not] at h
  by_cases hm : ty = 4 ∧ c = 4
  · left
    simp [eventmap, hm, Result.events, is_syn_report]
  · right
    simp [eventmap, hm, h, Result.events, List.range_succ]

/-- The outputs of one call for a key event: nothing, one key event, or the five events of
a tap. -/
theorem events_of_key (st : State) (e : input_event) (o : Buffer) (h : is_key e = true) :
    (eventmap st e o).events = [] ∨
      (∃ x, (eventmap st e o).events = [x] ∧ is_key x = true) ∨
      (eventmap st e o).events = [ctrl_up, ev_syn_report, esc_down, ev_syn_report, esc_up] := by
  obtain ⟨t, ty, c, v⟩ := e
  simp only [is_key, decide_eq_true_eq] at h
  subst h
  rcases code_cases c with rfl | rfl | rfl | rfl | rfl | rfl | ⟨h1, h2, h3, h4, h5, h6⟩ <;>
  rcases value_cases v with rfl | rfl | rfl | ⟨g0, g1, g2⟩ <;>
  simp [eventmap, Function.update, Result.events, List.range_succ, is_key, equal, designated, esc_down, esc_up, esc_repeat, leftalt_down,
      leftalt_up, rightalt_down, rightalt_up, leftshift_down, leftshift_up, rightshift_down,
      rightshift_up, ctrl_down, ctrl_up, ctrl_repeat, tilde_down, tilde_up, tilde_repeat,
      ev_syn_report, *] <;>
  split_ifs <;>
  simp [Function.update, Result.events, List.range_succ, is_key, ev_syn_report, designated]

/-- The scan accepts the outputs when it accepts the inputs, also when it starts the outputs
with nothing pending where the inputs had a key pending. -/
theorem framed_outputs (es : List input_event) :
    ∀ (p q : Bool) (st : State) (o : Buffer), (q = true → p = true) →
      framed_from p es = true → framed_from q (outputs st o es) = true := by
  induction es with
  | nil => intro p q st o _ _; rfl
  | cons e es ih =>
    intro p q st o hqp h
    by_cases hk : is_key e = true
    · simp only [framed_from, hk, if_true, Bool.and_eq_true, Bool.not_eq_true'] at h
      obtain ⟨hp, hrest⟩ := h
      have hq : q = false := by
        cases q with
        | false => rfl
        | true => rw [hqp rfl] at hp; exact absurd hp (by decide)
      subst hq
      rcases events_of_key st e o hk with h0 | ⟨x, h1, hx⟩ | h5
      · rw [outputs, h0, List.nil_append]
        exact ih true false _ _ (fun hh => absurd hh (by decide)) hrest
      · rw [outputs, h1]
        simp only [List.singleton_append, framed_from, hx, if_true, Bool.not_false,
          Bool.true_and]
        exact ih true true _ _ (fun hh => hh) hrest
      · rw [outputs, h5]
        have := ih true true (eventmap st e o).state (eventmap st e o).output (fun hh => hh)
          hrest
        simpa [framed_from, is_key, is_syn_report, ctrl_up, ev_syn_report, esc_down, esc_up,
          designated] using this
    · have hk' : is_key e = false := by simpa using hk
      by_cases hs : is_syn_report e = true
      · simp only [framed_from, hk', hs, if_true] at h
        rcases events_of_other st e o hk' with ⟨_, hns⟩ | h1
        · rw [hs] at hns
          exact absurd hns (by decide)
        · rw [outputs, h1]
          simp only [List.singleton_append, framed_from, hk', hs, if_true]
          exact ih false false _ _ (fun hh => hh) h
      · have hs' : is_syn_report e = false := by simpa using hs
        simp only [framed_from, hk', hs'] at h
        rcases events_of_other st e o hk' with ⟨h0, _⟩ | h1
        · rw [outputs, h0, List.nil_append]
          exact ih p q _ _ hqp (by simpa using h)
        · rw [outputs, h1]
          simp only [List.singleton_append, framed_from, hk', hs']
          exact ih p q _ _ hqp (by simpa using h)

/-- C19 (framing is preserved): for every starting state and every well-framed sequence of
input events (between any two key events there is a synchronization report), the
concatenation, in order, of the outputs of `eventmap` over the sequence is well-framed. -/
theorem framing_preserved (st : State) (o : Buffer) (es : List input_event)
    (h : well_framed es) : well_framed (outputs st o es) := by
  rw [← (framed_from_iff _).1] at h ⊢
  exact framed_outputs es false false st o (fun hh => hh) h

/-- A framed tap followed by a framed key: the eight inputs give a well-framed output. -/
theorem framing_preserved_witness :
    well_framed [ctrl_down, ev_syn_report, ctrl_up, ev_syn_report, tilde_down,
      ev_syn_report] ∧
    outputs State.zero blank [ctrl_down, ev_syn_report, ctrl_up, ev_syn_report, tilde_down,
        ev_syn_report]
      = [ctrl_down, ev_syn_report, ctrl_up, ev_syn_report, esc_down, ev_syn_report, esc_up,
          ev_syn_report, tilde_down, ev_syn_report] ∧
    well_framed (outputs State.zero blank [ctrl_down, ev_syn_report, ctrl_up, ev_syn_report,
      tilde_down, ev_syn_report]) :=
  ⟨(framed_from_iff _).1.mp (by decide), by decide,
   framing_preserved State.zero blank _ ((framed_from_iff _).1.mp (by decide))⟩

end Ctrl2Esc
